import Mathlib

/-!
Shallow embedding of `keystore2/src/key_parameter.rs`: the KeyParameterValue
codec between the KeyMint wire format, the SQLite storage format and the
Primitive interchange format, together with proofs of the codec's stated
properties.

Machine integers are modelled as `Int` (the code only moves values, it never
computes on them, so no overflow arithmetic arises); byte vectors as
`List Nat`; fallible Rust functions as `Except`.
-/

/-- AIDL enum `android.hardware.security.keymint.Algorithm`: a tuple struct
wrapping an `i32` (the Rust AIDL backend represents every AIDL enum this way). -/
structure Aidl.Algorithm where
  val : Int
deriving DecidableEq

/-- AIDL enum `BlockMode`, an `i32` wrapper. -/
structure Aidl.BlockMode where
  val : Int
deriving DecidableEq

/-- AIDL enum `Digest`, an `i32` wrapper. -/
structure Aidl.Digest where
  val : Int
deriving DecidableEq

/-- AIDL enum `EcCurve`, an `i32` wrapper. -/
structure Aidl.EcCurve where
  val : Int
deriving DecidableEq

/-- AIDL enum `HardwareAuthenticatorType`, an `i32` wrapper. -/
structure Aidl.HardwareAuthenticatorType where
  val : Int
deriving DecidableEq

/-- AIDL enum `KeyOrigin`, an `i32` wrapper. -/
structure Aidl.KeyOrigin where
  val : Int
deriving DecidableEq

/-- AIDL enum `KeyPurpose`, an `i32` wrapper. -/
structure Aidl.KeyPurpose where
  val : Int
deriving DecidableEq

/-- AIDL enum `PaddingMode`, an `i32` wrapper. -/
structure Aidl.PaddingMode where
  val : Int
deriving DecidableEq

/-- AIDL enum `SecurityLevel`, an `i32` wrapper. -/
structure Aidl.SecurityLevel where
  val : Int
deriving DecidableEq

/-- AIDL enum `android.hardware.security.keymint.Tag`: an `i32`-backed
enumeration. The named constants below carry the values from `Tag.aidl`
(the tag number or'ed with the `TagType` in the top nibble); arbitrary
integers are also inhabitants, exactly as in the Rust AIDL backend's
`pub struct Tag(pub i32)`. -/
structure Tag where
  val : Int
deriving DecidableEq

def Tag.INVALID : Tag := ⟨0⟩
def Tag.PURPOSE : Tag := ⟨536870913⟩
def Tag.ALGORITHM : Tag := ⟨268435458⟩
def Tag.KEY_SIZE : Tag := ⟨805306371⟩
def Tag.BLOCK_MODE : Tag := ⟨536870916⟩
def Tag.DIGEST : Tag := ⟨536870917⟩
def Tag.PADDING : Tag := ⟨536870918⟩
def Tag.CALLER_NONCE : Tag := ⟨1879048199⟩
def Tag.MIN_MAC_LENGTH : Tag := ⟨805306376⟩
def Tag.EC_CURVE : Tag := ⟨268435466⟩
def Tag.RSA_PUBLIC_EXPONENT : Tag := ⟨1342177480⟩
def Tag.INCLUDE_UNIQUE_ID : Tag := ⟨1879048394⟩
def Tag.RSA_OAEP_MGF_DIGEST : Tag := ⟨536871115⟩
def Tag.BOOTLOADER_ONLY : Tag := ⟨1879048494⟩
def Tag.ROLLBACK_RESISTANCE : Tag := ⟨1879048495⟩
def Tag.HARDWARE_TYPE : Tag := ⟨268435760⟩
def Tag.EARLY_BOOT_ONLY : Tag := ⟨1879048497⟩
def Tag.ACTIVE_DATETIME : Tag := ⟨1610613136⟩
def Tag.ORIGINATION_EXPIRE_DATETIME : Tag := ⟨1610613137⟩
def Tag.USAGE_EXPIRE_DATETIME : Tag := ⟨1610613138⟩
def Tag.MIN_SECONDS_BETWEEN_OPS : Tag := ⟨805306771⟩
def Tag.MAX_USES_PER_BOOT : Tag := ⟨805306772⟩
def Tag.USAGE_COUNT_LIMIT : Tag := ⟨805306773⟩
def Tag.USER_ID : Tag := ⟨805306869⟩
def Tag.USER_SECURE_ID : Tag := ⟨-1610612234⟩
def Tag.NO_AUTH_REQUIRED : Tag := ⟨1879048695⟩
def Tag.USER_AUTH_TYPE : Tag := ⟨268435960⟩
def Tag.AUTH_TIMEOUT : Tag := ⟨805306873⟩
def Tag.ALLOW_WHILE_ON_BODY : Tag := ⟨1879048698⟩
def Tag.TRUSTED_USER_PRESENCE_REQUIRED : Tag := ⟨1879048699⟩
def Tag.TRUSTED_CONFIRMATION_REQUIRED : Tag := ⟨1879048700⟩
def Tag.UNLOCKED_DEVICE_REQUIRED : Tag := ⟨1879048701⟩
def Tag.APPLICATION_ID : Tag := ⟨-1879047591⟩
def Tag.APPLICATION_DATA : Tag := ⟨-1879047492⟩
def Tag.CREATION_DATETIME : Tag := ⟨1610613437⟩
def Tag.ORIGIN : Tag := ⟨268436158⟩
def Tag.ROOT_OF_TRUST : Tag := ⟨-1879047488⟩
def Tag.OS_VERSION : Tag := ⟨805307073⟩
def Tag.OS_PATCHLEVEL : Tag := ⟨805307074⟩
def Tag.UNIQUE_ID : Tag := ⟨-1879047485⟩
def Tag.ATTESTATION_CHALLENGE : Tag := ⟨-1879047484⟩
def Tag.ATTESTATION_APPLICATION_ID : Tag := ⟨-1879047483⟩
def Tag.ATTESTATION_ID_BRAND : Tag := ⟨-1879047482⟩
def Tag.ATTESTATION_ID_DEVICE : Tag := ⟨-1879047481⟩
def Tag.ATTESTATION_ID_PRODUCT : Tag := ⟨-1879047480⟩
def Tag.ATTESTATION_ID_SERIAL : Tag := ⟨-1879047479⟩
def Tag.ATTESTATION_ID_IMEI : Tag := ⟨-1879047478⟩
def Tag.ATTESTATION_ID_MEID : Tag := ⟨-1879047477⟩
def Tag.ATTESTATION_ID_MANUFACTURER : Tag := ⟨-1879047476⟩
def Tag.ATTESTATION_ID_MODEL : Tag := ⟨-1879047475⟩
def Tag.VENDOR_PATCHLEVEL : Tag := ⟨805307086⟩
def Tag.BOOT_PATCHLEVEL : Tag := ⟨805307087⟩
def Tag.DEVICE_UNIQUE_ATTESTATION : Tag := ⟨1879048912⟩
def Tag.IDENTITY_CREDENTIAL_KEY : Tag := ⟨1879048913⟩
def Tag.STORAGE_KEY : Tag := ⟨1879048914⟩
def Tag.ATTESTATION_ID_SECOND_IMEI : Tag := ⟨-1879047469⟩
def Tag.ASSOCIATED_DATA : Tag := ⟨-1879047192⟩
def Tag.NONCE : Tag := ⟨-1879047191⟩
def Tag.MAC_LENGTH : Tag := ⟨805307371⟩
def Tag.RESET_SINCE_ID_ROTATION : Tag := ⟨1879049196⟩
def Tag.CONFIRMATION_TOKEN : Tag := ⟨-1879047187⟩
def Tag.CERTIFICATE_SERIAL : Tag := ⟨-2147482642⟩
def Tag.CERTIFICATE_SUBJECT : Tag := ⟨-1879047185⟩
def Tag.CERTIFICATE_NOT_BEFORE : Tag := ⟨1610613744⟩
def Tag.CERTIFICATE_NOT_AFTER : Tag := ⟨1610613745⟩
def Tag.MAX_BOOT_LEVEL : Tag := ⟨805307378⟩

/-- `pub enum Primitive`: the 3-case interchange union passed to
`KeyParameterValue::new_from_tag_primitive_pair`. -/
inductive Primitive where
  | I64 (v : Int)
  | I32 (v : Int)
  | Vec (v : List Nat)
deriving DecidableEq

/-- `pub enum PrimitiveError`: returned by `new_from_tag_primitive_pair`. -/
inductive PrimitiveError where
  | TypeMismatch
  | UnknownTag
deriving DecidableEq

/-- `impl TryFrom<Primitive> for i64`. -/
def Primitive.tryIntoI64 : Primitive → Except PrimitiveError Int
  | .I64 v => .ok v
  | _ => .error .TypeMismatch

/-- `impl TryFrom<Primitive> for i32`. -/
def Primitive.tryIntoI32 : Primitive → Except PrimitiveError Int
  | .I32 v => .ok v
  | _ => .error .TypeMismatch

/-- `impl TryFrom<Primitive> for Vec<u8>`. -/
def Primitive.tryIntoVec : Primitive → Except PrimitiveError (List Nat)
  | .Vec v => .ok v
  | _ => .error .TypeMismatch

/-- `implement_associate_primitive_for_aidl_enum!{Algorithm}`:
`from_primitive` wraps the `i32`, `to_primitive` unwraps it. -/
def Aidl.Algorithm.from_primitive (v : Int) : Aidl.Algorithm := ⟨v⟩

def Aidl.Algorithm.to_primitive (a : Aidl.Algorithm) : Int := a.val

def Aidl.BlockMode.from_primitive (v : Int) : Aidl.BlockMode := ⟨v⟩

def Aidl.BlockMode.to_primitive (a : Aidl.BlockMode) : Int := a.val

def Aidl.Digest.from_primitive (v : Int) : Aidl.Digest := ⟨v⟩

def Aidl.Digest.to_primitive (a : Aidl.Digest) : Int := a.val

def Aidl.EcCurve.from_primitive (v : Int) : Aidl.EcCurve := ⟨v⟩

def Aidl.EcCurve.to_primitive (a : Aidl.EcCurve) : Int := a.val

def Aidl.HardwareAuthenticatorType.from_primitive (v : Int) :
    Aidl.HardwareAuthenticatorType := ⟨v⟩

def Aidl.HardwareAuthenticatorType.to_primitive
    (a : Aidl.HardwareAuthenticatorType) : Int := a.val

def Aidl.KeyOrigin.from_primitive (v : Int) : Aidl.KeyOrigin := ⟨v⟩

def Aidl.KeyOrigin.to_primitive (a : Aidl.KeyOrigin) : Int := a.val

def Aidl.KeyPurpose.from_primitive (v : Int) : Aidl.KeyPurpose := ⟨v⟩

def Aidl.KeyPurpose.to_primitive (a : Aidl.KeyPurpose) : Int := a.val

def Aidl.PaddingMode.from_primitive (v : Int) : Aidl.PaddingMode := ⟨v⟩

def Aidl.PaddingMode.to_primitive (a : Aidl.PaddingMode) : Int := a.val

/-- `pub enum KeyParameterValue`: one variant per row of the key-parameter
table, in the table's declaration order; each variant's payload type is the
table row's `$vtype` (absent for `Invalid` and the boolean flag rows). -/
inductive KeyParameterValue where
  | Invalid
  | KeyPurpose (v : Aidl.KeyPurpose)
  | Algorithm (v : Aidl.Algorithm)
  | KeySize (v : Int)
  | BlockMode (v : Aidl.BlockMode)
  | Digest (v : Aidl.Digest)
  | RsaOaepMgfDigest (v : Aidl.Digest)
  | PaddingMode (v : Aidl.PaddingMode)
  | CallerNonce
  | MinMacLength (v : Int)
  | EcCurve (v : Aidl.EcCurve)
  | RSAPublicExponent (v : Int)
  | IncludeUniqueID
  | BootLoaderOnly
  | RollbackResistance
  | EarlyBootOnly
  | ActiveDateTime (v : Int)
  | OriginationExpireDateTime (v : Int)
  | UsageExpireDateTime (v : Int)
  | MinSecondsBetweenOps (v : Int)
  | MaxUsesPerBoot (v : Int)
  | UsageCountLimit (v : Int)
  | UserID (v : Int)
  | UserSecureID (v : Int)
  | NoAuthRequired
  | HardwareAuthenticatorType (v : Aidl.HardwareAuthenticatorType)
  | AuthTimeout (v : Int)
  | AllowWhileOnBody
  | TrustedUserPresenceRequired
  | TrustedConfirmationRequired
  | UnlockedDeviceRequired
  | ApplicationID (v : List Nat)
  | ApplicationData (v : List Nat)
  | CreationDateTime (v : Int)
  | KeyOrigin (v : Aidl.KeyOrigin)
  | RootOfTrust (v : List Nat)
  | OSVersion (v : Int)
  | OSPatchLevel (v : Int)
  | UniqueID (v : List Nat)
  | AttestationChallenge (v : List Nat)
  | AttestationApplicationID (v : List Nat)
  | AttestationIdBrand (v : List Nat)
  | AttestationIdDevice (v : List Nat)
  | AttestationIdProduct (v : List Nat)
  | AttestationIdSerial (v : List Nat)
  | AttestationIdIMEI (v : List Nat)
  | AttestationIdSecondIMEI (v : List Nat)
  | AttestationIdMEID (v : List Nat)
  | AttestationIdManufacturer (v : List Nat)
  | AttestationIdModel (v : List Nat)
  | VendorPatchLevel (v : Int)
  | BootPatchLevel (v : Int)
  | AssociatedData (v : List Nat)
  | Nonce (v : List Nat)
  | MacLength (v : Int)
  | ResetSinceIdRotation
  | ConfirmationToken (v : List Nat)
  | CertificateSerial (v : List Nat)
  | CertificateSubject (v : List Nat)
  | CertificateNotBefore (v : Int)
  | CertificateNotAfter (v : Int)
  | MaxBootLevel (v : Int)

/-- `implement_get_tag!`: total projection of a variant to its table row's
tag. -/
def KeyParameterValue.get_tag : KeyParameterValue → Tag
  | .Invalid => Tag.INVALID
  | .KeyPurpose _ => Tag.PURPOSE
  | .Algorithm _ => Tag.ALGORITHM
  | .KeySize _ => Tag.KEY_SIZE
  | .BlockMode _ => Tag.BLOCK_MODE
  | .Digest _ => Tag.DIGEST
  | .RsaOaepMgfDigest _ => Tag.RSA_OAEP_MGF_DIGEST
  | .PaddingMode _ => Tag.PADDING
  | .CallerNonce => Tag.CALLER_NONCE
  | .MinMacLength _ => Tag.MIN_MAC_LENGTH
  | .EcCurve _ => Tag.EC_CURVE
  | .RSAPublicExponent _ => Tag.RSA_PUBLIC_EXPONENT
  | .IncludeUniqueID => Tag.INCLUDE_UNIQUE_ID
  | .BootLoaderOnly => Tag.BOOTLOADER_ONLY
  | .RollbackResistance => Tag.ROLLBACK_RESISTANCE
  | .EarlyBootOnly => Tag.EARLY_BOOT_ONLY
  | .ActiveDateTime _ => Tag.ACTIVE_DATETIME
  | .OriginationExpireDateTime _ => Tag.ORIGINATION_EXPIRE_DATETIME
  | .UsageExpireDateTime _ => Tag.USAGE_EXPIRE_DATETIME
  | .MinSecondsBetweenOps _ => Tag.MIN_SECONDS_BETWEEN_OPS
  | .MaxUsesPerBoot _ => Tag.MAX_USES_PER_BOOT
  | .UsageCountLimit _ => Tag.USAGE_COUNT_LIMIT
  | .UserID _ => Tag.USER_ID
  | .UserSecureID _ => Tag.USER_SECURE_ID
  | .NoAuthRequired => Tag.NO_AUTH_REQUIRED
  | .HardwareAuthenticatorType _ => Tag.USER_AUTH_TYPE
  | .AuthTimeout _ => Tag.AUTH_TIMEOUT
  | .AllowWhileOnBody => Tag.ALLOW_WHILE_ON_BODY
  | .TrustedUserPresenceRequired => Tag.TRUSTED_USER_PRESENCE_REQUIRED
  | .TrustedConfirmationRequired => Tag.TRUSTED_CONFIRMATION_REQUIRED
  | .UnlockedDeviceRequired => Tag.UNLOCKED_DEVICE_REQUIRED
  | .ApplicationID _ => Tag.APPLICATION_ID
  | .ApplicationData _ => Tag.APPLICATION_DATA
  | .CreationDateTime _ => Tag.CREATION_DATETIME
  | .KeyOrigin _ => Tag.ORIGIN
  | .RootOfTrust _ => Tag.ROOT_OF_TRUST
  | .OSVersion _ => Tag.OS_VERSION
  | .OSPatchLevel _ => Tag.OS_PATCHLEVEL
  | .UniqueID _ => Tag.UNIQUE_ID
  | .AttestationChallenge _ => Tag.ATTESTATION_CHALLENGE
  | .AttestationApplicationID _ => Tag.ATTESTATION_APPLICATION_ID
  | .AttestationIdBrand _ => Tag.ATTESTATION_ID_BRAND
  | .AttestationIdDevice _ => Tag.ATTESTATION_ID_DEVICE
  | .AttestationIdProduct _ => Tag.ATTESTATION_ID_PRODUCT
  | .AttestationIdSerial _ => Tag.ATTESTATION_ID_SERIAL
  | .AttestationIdIMEI _ => Tag.ATTESTATION_ID_IMEI
  | .AttestationIdSecondIMEI _ => Tag.ATTESTATION_ID_SECOND_IMEI
  | .AttestationIdMEID _ => Tag.ATTESTATION_ID_MEID
  | .AttestationIdManufacturer _ => Tag.ATTESTATION_ID_MANUFACTURER
  | .AttestationIdModel _ => Tag.ATTESTATION_ID_MODEL
  | .VendorPatchLevel _ => Tag.VENDOR_PATCHLEVEL
  | .BootPatchLevel _ => Tag.BOOT_PATCHLEVEL
  | .AssociatedData _ => Tag.ASSOCIATED_DATA
  | .Nonce _ => Tag.NONCE
  | .MacLength _ => Tag.MAC_LENGTH
  | .ResetSinceIdRotation => Tag.RESET_SINCE_ID_ROTATION
  | .ConfirmationToken _ => Tag.CONFIRMATION_TOKEN
  | .CertificateSerial _ => Tag.CERTIFICATE_SERIAL
  | .CertificateSubject _ => Tag.CERTIFICATE_SUBJECT
  | .CertificateNotBefore _ => Tag.CERTIFICATE_NOT_BEFORE
  | .CertificateNotAfter _ => Tag.CERTIFICATE_NOT_AFTER
  | .MaxBootLevel _ => Tag.MAX_BOOT_LEVEL

/-- `implement_from_tag_primitive_pair!`: `Ok(match tag { Tag::T =>
Variant(<vtype>::from_primitive(p.try_into()?)), ..., _ =>
return Err(PrimitiveError::UnknownTag) })`. The Rust generic `T:
Into<Primitive>` argument arrives here already converted to `Primitive`. -/
def KeyParameterValue.new_from_tag_primitive_pair (tag : Tag) (p : Primitive) :
    Except PrimitiveError KeyParameterValue :=
  if tag = Tag.INVALID then .ok .Invalid
  else if tag = Tag.PURPOSE then
    p.tryIntoI32.map fun v => .KeyPurpose (Aidl.KeyPurpose.from_primitive v)
  else if tag = Tag.ALGORITHM then
    p.tryIntoI32.map fun v => .Algorithm (Aidl.Algorithm.from_primitive v)
  else if tag = Tag.KEY_SIZE then p.tryIntoI32.map fun v => .KeySize v
  else if tag = Tag.BLOCK_MODE then
    p.tryIntoI32.map fun v => .BlockMode (Aidl.BlockMode.from_primitive v)
  else if tag = Tag.DIGEST then
    p.tryIntoI32.map fun v => .Digest (Aidl.Digest.from_primitive v)
  else if tag = Tag.RSA_OAEP_MGF_DIGEST then
    p.tryIntoI32.map fun v => .RsaOaepMgfDigest (Aidl.Digest.from_primitive v)
  else if tag = Tag.PADDING then
    p.tryIntoI32.map fun v => .PaddingMode (Aidl.PaddingMode.from_primitive v)
  else if tag = Tag.CALLER_NONCE then .ok .CallerNonce
  else if tag = Tag.MIN_MAC_LENGTH then p.tryIntoI32.map fun v => .MinMacLength v
  else if tag = Tag.EC_CURVE then
    p.tryIntoI32.map fun v => .EcCurve (Aidl.EcCurve.from_primitive v)
  else if tag = Tag.RSA_PUBLIC_EXPONENT then
    p.tryIntoI64.map fun v => .RSAPublicExponent v
  else if tag = Tag.INCLUDE_UNIQUE_ID then .ok .IncludeUniqueID
  else if tag = Tag.BOOTLOADER_ONLY then .ok .BootLoaderOnly
  else if tag = Tag.ROLLBACK_RESISTANCE then .ok .RollbackResistance
  else if tag = Tag.EARLY_BOOT_ONLY then .ok .EarlyBootOnly
  else if tag = Tag.ACTIVE_DATETIME then p.tryIntoI64.map fun v => .ActiveDateTime v
  else if tag = Tag.ORIGINATION_EXPIRE_DATETIME then
    p.tryIntoI64.map fun v => .OriginationExpireDateTime v
  else if tag = Tag.USAGE_EXPIRE_DATETIME then
    p.tryIntoI64.map fun v => .UsageExpireDateTime v
  else if tag = Tag.MIN_SECONDS_BETWEEN_OPS then
    p.tryIntoI32.map fun v => .MinSecondsBetweenOps v
  else if tag = Tag.MAX_USES_PER_BOOT then p.tryIntoI32.map fun v => .MaxUsesPerBoot v
  else if tag = Tag.USAGE_COUNT_LIMIT then p.tryIntoI32.map fun v => .UsageCountLimit v
  else if tag = Tag.USER_ID then p.tryIntoI32.map fun v => .UserID v
  else if tag = Tag.USER_SECURE_ID then p.tryIntoI64.map fun v => .UserSecureID v
  else if tag = Tag.NO_AUTH_REQUIRED then .ok .NoAuthRequired
  else if tag = Tag.USER_AUTH_TYPE then
    p.tryIntoI32.map fun v =>
      .HardwareAuthenticatorType (Aidl.HardwareAuthenticatorType.from_primitive v)
  else if tag = Tag.AUTH_TIMEOUT then p.tryIntoI32.map fun v => .AuthTimeout v
  else if tag = Tag.ALLOW_WHILE_ON_BODY then .ok .AllowWhileOnBody
  else if tag = Tag.TRUSTED_USER_PRESENCE_REQUIRED then .ok .TrustedUserPresenceRequired
  else if tag = Tag.TRUSTED_CONFIRMATION_REQUIRED then .ok .TrustedConfirmationRequired
  else if tag = Tag.UNLOCKED_DEVICE_REQUIRED then .ok .UnlockedDeviceRequired
  else if tag = Tag.APPLICATION_ID then p.tryIntoVec.map fun v => .ApplicationID v
  else if tag = Tag.APPLICATION_DATA then p.tryIntoVec.map fun v => .ApplicationData v
  else if tag = Tag.CREATION_DATETIME then p.tryIntoI64.map fun v => .CreationDateTime v
  else if tag = Tag.ORIGIN then
    p.tryIntoI32.map fun v => .KeyOrigin (Aidl.KeyOrigin.from_primitive v)
  else if tag = Tag.ROOT_OF_TRUST then p.tryIntoVec.map fun v => .RootOfTrust v
  else if tag = Tag.OS_VERSION then p.tryIntoI32.map fun v => .OSVersion v
  else if tag = Tag.OS_PATCHLEVEL then p.tryIntoI32.map fun v => .OSPatchLevel v
  else if tag = Tag.UNIQUE_ID then p.tryIntoVec.map fun v => .UniqueID v
  else if tag = Tag.ATTESTATION_CHALLENGE then
    p.tryIntoVec.map fun v => .AttestationChallenge v
  else if tag = Tag.ATTESTATION_APPLICATION_ID then
    p.tryIntoVec.map fun v => .AttestationApplicationID v
  else if tag = Tag.ATTESTATION_ID_BRAND then
    p.tryIntoVec.map fun v => .AttestationIdBrand v
  else if tag = Tag.ATTESTATION_ID_DEVICE then
    p.tryIntoVec.map fun v => .AttestationIdDevice v
  else if tag = Tag.ATTESTATION_ID_PRODUCT then
    p.tryIntoVec.map fun v => .AttestationIdProduct v
  else if tag = Tag.ATTESTATION_ID_SERIAL then
    p.tryIntoVec.map fun v => .AttestationIdSerial v
  else if tag = Tag.ATTESTATION_ID_IMEI then
    p.tryIntoVec.map fun v => .AttestationIdIMEI v
  else if tag = Tag.ATTESTATION_ID_SECOND_IMEI then
    p.tryIntoVec.map fun v => .AttestationIdSecondIMEI v
  else if tag = Tag.ATTESTATION_ID_MEID then
    p.tryIntoVec.map fun v => .AttestationIdMEID v
  else if tag = Tag.ATTESTATION_ID_MANUFACTURER then
    p.tryIntoVec.map fun v => .AttestationIdManufacturer v
  else if tag = Tag.ATTESTATION_ID_MODEL then
    p.tryIntoVec.map fun v => .AttestationIdModel v
  else if tag = Tag.VENDOR_PATCHLEVEL then p.tryIntoI32.map fun v => .VendorPatchLevel v
  else if tag = Tag.BOOT_PATCHLEVEL then p.tryIntoI32.map fun v => .BootPatchLevel v
  else if tag = Tag.ASSOCIATED_DATA then p.tryIntoVec.map fun v => .AssociatedData v
  else if tag = Tag.NONCE then p.tryIntoVec.map fun v => .Nonce v
  else if tag = Tag.MAC_LENGTH then p.tryIntoI32.map fun v => .MacLength v
  else if tag = Tag.RESET_SINCE_ID_ROTATION then .ok .ResetSinceIdRotation
  else if tag = Tag.CONFIRMATION_TOKEN then p.tryIntoVec.map fun v => .ConfirmationToken v
  else if tag = Tag.CERTIFICATE_SERIAL then p.tryIntoVec.map fun v => .CertificateSerial v
  else if tag = Tag.CERTIFICATE_SUBJECT then
    p.tryIntoVec.map fun v => .CertificateSubject v
  else if tag = Tag.CERTIFICATE_NOT_BEFORE then
    p.tryIntoI64.map fun v => .CertificateNotBefore v
  else if tag = Tag.CERTIFICATE_NOT_AFTER then
    p.tryIntoI64.map fun v => .CertificateNotAfter v
  else if tag = Tag.MAX_BOOT_LEVEL then p.tryIntoI32.map fun v => .MaxBootLevel v
  else .error .UnknownTag

/-- The result cell of `rusqlite::ToSqlOutput` as this module produces it: one
constructor per monomorphic `ToSqlOutput::from` conversion the generated
`to_sql` invokes (`Null`, `i32`, `i64`, `Vec<u8>`). -/
inductive ToSqlOutput where
  | null
  | fromI32 (v : Int)
  | fromI64 (v : Int)
  | fromVec (v : List Nat)
deriving DecidableEq

/-- `implement_to_sql!`: payload-less variants store SQL `Null`; every other
variant stores `ToSqlOutput::from(v.to_primitive())`. The rusqlite `SqlResult`
error case is modelled by `Except Unit`; no arm produces it. -/
def KeyParameterValue.to_sql : KeyParameterValue → Except Unit ToSqlOutput
  | .Invalid => .ok .null
  | .KeyPurpose v => .ok (.fromI32 v.to_primitive)
  | .Algorithm v => .ok (.fromI32 v.to_primitive)
  | .KeySize v => .ok (.fromI32 v)
  | .BlockMode v => .ok (.fromI32 v.to_primitive)
  | .Digest v => .ok (.fromI32 v.to_primitive)
  | .RsaOaepMgfDigest v => .ok (.fromI32 v.to_primitive)
  | .PaddingMode v => .ok (.fromI32 v.to_primitive)
  | .CallerNonce => .ok .null
  | .MinMacLength v => .ok (.fromI32 v)
  | .EcCurve v => .ok (.fromI32 v.to_primitive)
  | .RSAPublicExponent v => .ok (.fromI64 v)
  | .IncludeUniqueID => .ok .null
  | .BootLoaderOnly => .ok .null
  | .RollbackResistance => .ok .null
  | .EarlyBootOnly => .ok .null
  | .ActiveDateTime v => .ok (.fromI64 v)
  | .OriginationExpireDateTime v => .ok (.fromI64 v)
  | .UsageExpireDateTime v => .ok (.fromI64 v)
  | .MinSecondsBetweenOps v => .ok (.fromI32 v)
  | .MaxUsesPerBoot v => .ok (.fromI32 v)
  | .UsageCountLimit v => .ok (.fromI32 v)
  | .UserID v => .ok (.fromI32 v)
  | .UserSecureID v => .ok (.fromI64 v)
  | .NoAuthRequired => .ok .null
  | .HardwareAuthenticatorType v => .ok (.fromI32 v.to_primitive)
  | .AuthTimeout v => .ok (.fromI32 v)
  | .AllowWhileOnBody => .ok .null
  | .TrustedUserPresenceRequired => .ok .null
  | .TrustedConfirmationRequired => .ok .null
  | .UnlockedDeviceRequired => .ok .null
  | .ApplicationID v => .ok (.fromVec v)
  | .ApplicationData v => .ok (.fromVec v)
  | .CreationDateTime v => .ok (.fromI64 v)
  | .KeyOrigin v => .ok (.fromI32 v.to_primitive)
  | .RootOfTrust v => .ok (.fromVec v)
  | .OSVersion v => .ok (.fromI32 v)
  | .OSPatchLevel v => .ok (.fromI32 v)
  | .UniqueID v => .ok (.fromVec v)
  | .AttestationChallenge v => .ok (.fromVec v)
  | .AttestationApplicationID v => .ok (.fromVec v)
  | .AttestationIdBrand v => .ok (.fromVec v)
  | .AttestationIdDevice v => .ok (.fromVec v)
  | .AttestationIdProduct v => .ok (.fromVec v)
  | .AttestationIdSerial v => .ok (.fromVec v)
  | .AttestationIdIMEI v => .ok (.fromVec v)
  | .AttestationIdSecondIMEI v => .ok (.fromVec v)
  | .AttestationIdMEID v => .ok (.fromVec v)
  | .AttestationIdManufacturer v => .ok (.fromVec v)
  | .AttestationIdModel v => .ok (.fromVec v)
  | .VendorPatchLevel v => .ok (.fromI32 v)
  | .BootPatchLevel v => .ok (.fromI32 v)
  | .AssociatedData v => .ok (.fromVec v)
  | .Nonce v => .ok (.fromVec v)
  | .MacLength v => .ok (.fromI32 v)
  | .ResetSinceIdRotation => .ok .null
  | .ConfirmationToken v => .ok (.fromVec v)
  | .CertificateSerial v => .ok (.fromVec v)
  | .CertificateSubject v => .ok (.fromVec v)
  | .CertificateNotBefore v => .ok (.fromI64 v)
  | .CertificateNotAfter v => .ok (.fromI64 v)
  | .MaxBootLevel v => .ok (.fromI32 v)

/-- Modelled from the spec: `SqlField` (`crate::database::utils`, not under
src/) is, per §6, "a typed column-read capability ... a fallible typed
`get<T>()` that yields the declared primitive type or an error"; one fallible
getter per primitive type the table's payload classes use. -/
structure SqlField where
  getI32 : Except Unit Int
  getI64 : Except Unit Int
  getVec : Except Unit (List Nat)

/-- Modelled from the spec: `ResponseCode` (`crate::error`, not under src/);
only the value this codec produces is modelled. -/
inductive ResponseCode where
  | VALUE_CORRUPTED
deriving DecidableEq

/-- Modelled from the spec: `KeystoreError` (`crate::error`, not under src/);
only the `Rc` (response-code) case this codec produces is modelled. -/
inductive KeystoreError where
  | Rc (rc : ResponseCode)
deriving DecidableEq

/-- An `anyhow` error as `new_from_sql` produces it: the mapped
`KeystoreError` plus the `.context(...)` diagnostic string. -/
structure AnyhowError where
  source : KeystoreError
  context : String
deriving DecidableEq

/-- The per-arm read chain of `implement_new_from_sql!`: `data.get()
.map_err(|_| KeystoreError::Rc(ResponseCode::VALUE_CORRUPTED))
.context(concat!("Failed to read sql data for tag: ", stringify!($tag_name), "."))?`. -/
def sqlGet {α : Type} (tag_name : String) (g : Except Unit α) :
    Except AnyhowError α :=
  match g with
  | .ok v => .ok v
  | .error _ =>
    .error ⟨.Rc .VALUE_CORRUPTED, "Failed to read sql data for tag: " ++ tag_name ++ "."⟩

/-- `implement_new_from_sql!`: per table row, decode the cell as the row's
primitive type; a tag with no row falls to the catch-all `_ =>
KeyParameterValue::Invalid` arm (inside `Ok(...)`). -/
def KeyParameterValue.new_from_sql (tag : Tag) (data : SqlField) :
    Except AnyhowError KeyParameterValue :=
  if tag = Tag.INVALID then .ok .Invalid
  else if tag = Tag.PURPOSE then
    (sqlGet "PURPOSE" data.getI32).map fun v => .KeyPurpose (Aidl.KeyPurpose.from_primitive v)
  else if tag = Tag.ALGORITHM then
    (sqlGet "ALGORITHM" data.getI32).map fun v => .Algorithm (Aidl.Algorithm.from_primitive v)
  else if tag = Tag.KEY_SIZE then
    (sqlGet "KEY_SIZE" data.getI32).map fun v => .KeySize v
  else if tag = Tag.BLOCK_MODE then
    (sqlGet "BLOCK_MODE" data.getI32).map fun v => .BlockMode (Aidl.BlockMode.from_primitive v)
  else if tag = Tag.DIGEST then
    (sqlGet "DIGEST" data.getI32).map fun v => .Digest (Aidl.Digest.from_primitive v)
  else if tag = Tag.RSA_OAEP_MGF_DIGEST then
    (sqlGet "RSA_OAEP_MGF_DIGEST" data.getI32).map fun v =>
      .RsaOaepMgfDigest (Aidl.Digest.from_primitive v)
  else if tag = Tag.PADDING then
    (sqlGet "PADDING" data.getI32).map fun v => .PaddingMode (Aidl.PaddingMode.from_primitive v)
  else if tag = Tag.CALLER_NONCE then .ok .CallerNonce
  else if tag = Tag.MIN_MAC_LENGTH then
    (sqlGet "MIN_MAC_LENGTH" data.getI32).map fun v => .MinMacLength v
  else if tag = Tag.EC_CURVE then
    (sqlGet "EC_CURVE" data.getI32).map fun v => .EcCurve (Aidl.EcCurve.from_primitive v)
  else if tag = Tag.RSA_PUBLIC_EXPONENT then
    (sqlGet "RSA_PUBLIC_EXPONENT" data.getI64).map fun v => .RSAPublicExponent v
  else if tag = Tag.INCLUDE_UNIQUE_ID then .ok .IncludeUniqueID
  else if tag = Tag.BOOTLOADER_ONLY then .ok .BootLoaderOnly
  else if tag = Tag.ROLLBACK_RESISTANCE then .ok .RollbackResistance
  else if tag = Tag.EARLY_BOOT_ONLY then .ok .EarlyBootOnly
  else if tag = Tag.ACTIVE_DATETIME then
    (sqlGet "ACTIVE_DATETIME" data.getI64).map fun v => .ActiveDateTime v
  else if tag = Tag.ORIGINATION_EXPIRE_DATETIME then
    (sqlGet "ORIGINATION_EXPIRE_DATETIME" data.getI64).map fun v => .OriginationExpireDateTime v
  else if tag = Tag.USAGE_EXPIRE_DATETIME then
    (sqlGet "USAGE_EXPIRE_DATETIME" data.getI64).map fun v => .UsageExpireDateTime v
  else if tag = Tag.MIN_SECONDS_BETWEEN_OPS then
    (sqlGet "MIN_SECONDS_BETWEEN_OPS" data.getI32).map fun v => .MinSecondsBetweenOps v
  else if tag = Tag.MAX_USES_PER_BOOT then
    (sqlGet "MAX_USES_PER_BOOT" data.getI32).map fun v => .MaxUsesPerBoot v
  else if tag = Tag.USAGE_COUNT_LIMIT then
    (sqlGet "USAGE_COUNT_LIMIT" data.getI32).map fun v => .UsageCountLimit v
  else if tag = Tag.USER_ID then
    (sqlGet "USER_ID" data.getI32).map fun v => .UserID v
  else if tag = Tag.USER_SECURE_ID then
    (sqlGet "USER_SECURE_ID" data.getI64).map fun v => .UserSecureID v
  else if tag = Tag.NO_AUTH_REQUIRED then .ok .NoAuthRequired
  else if tag = Tag.USER_AUTH_TYPE then
    (sqlGet "USER_AUTH_TYPE" data.getI32).map fun v =>
      .HardwareAuthenticatorType (Aidl.HardwareAuthenticatorType.from_primitive v)
  else if tag = Tag.AUTH_TIMEOUT then
    (sqlGet "AUTH_TIMEOUT" data.getI32).map fun v => .AuthTimeout v
  else if tag = Tag.ALLOW_WHILE_ON_BODY then .ok .AllowWhileOnBody
  else if tag = Tag.TRUSTED_USER_PRESENCE_REQUIRED then .ok .TrustedUserPresenceRequired
  else if tag = Tag.TRUSTED_CONFIRMATION_REQUIRED then .ok .TrustedConfirmationRequired
  else if tag = Tag.UNLOCKED_DEVICE_REQUIRED then .ok .UnlockedDeviceRequired
  else if tag = Tag.APPLICATION_ID then
    (sqlGet "APPLICATION_ID" data.getVec).map fun v => .ApplicationID v
  else if tag = Tag.APPLICATION_DATA then
    (sqlGet "APPLICATION_DATA" data.getVec).map fun v => .ApplicationData v
  else if tag = Tag.CREATION_DATETIME then
    (sqlGet "CREATION_DATETIME" data.getI64).map fun v => .CreationDateTime v
  else if tag = Tag.ORIGIN then
    (sqlGet "ORIGIN" data.getI32).map fun v => .KeyOrigin (Aidl.KeyOrigin.from_primitive v)
  else if tag = Tag.ROOT_OF_TRUST then
    (sqlGet "ROOT_OF_TRUST" data.getVec).map fun v => .RootOfTrust v
  else if tag = Tag.OS_VERSION then
    (sqlGet "OS_VERSION" data.getI32).map fun v => .OSVersion v
  else if tag = Tag.OS_PATCHLEVEL then
    (sqlGet "OS_PATCHLEVEL" data.getI32).map fun v => .OSPatchLevel v
  else if tag = Tag.UNIQUE_ID then
    (sqlGet "UNIQUE_ID" data.getVec).map fun v => .UniqueID v
  else if tag = Tag.ATTESTATION_CHALLENGE then
    (sqlGet "ATTESTATION_CHALLENGE" data.getVec).map fun v => .AttestationChallenge v
  else if tag = Tag.ATTESTATION_APPLICATION_ID then
    (sqlGet "ATTESTATION_APPLICATION_ID" data.getVec).map fun v => .AttestationApplicationID v
  else if tag = Tag.ATTESTATION_ID_BRAND then
    (sqlGet "ATTESTATION_ID_BRAND" data.getVec).map fun v => .AttestationIdBrand v
  else if tag = Tag.ATTESTATION_ID_DEVICE then
    (sqlGet "ATTESTATION_ID_DEVICE" data.getVec).map fun v => .AttestationIdDevice v
  else if tag = Tag.ATTESTATION_ID_PRODUCT then
    (sqlGet "ATTESTATION_ID_PRODUCT" data.getVec).map fun v => .AttestationIdProduct v
  else if tag = Tag.ATTESTATION_ID_SERIAL then
    (sqlGet "ATTESTATION_ID_SERIAL" data.getVec).map fun v => .AttestationIdSerial v
  else if tag = Tag.ATTESTATION_ID_IMEI then
    (sqlGet "ATTESTATION_ID_IMEI" data.getVec).map fun v => .AttestationIdIMEI v
  else if tag = Tag.ATTESTATION_ID_SECOND_IMEI then
    (sqlGet "ATTESTATION_ID_SECOND_IMEI" data.getVec).map fun v => .AttestationIdSecondIMEI v
  else if tag = Tag.ATTESTATION_ID_MEID then
    (sqlGet "ATTESTATION_ID_MEID" data.getVec).map fun v => .AttestationIdMEID v
  else if tag = Tag.ATTESTATION_ID_MANUFACTURER then
    (sqlGet "ATTESTATION_ID_MANUFACTURER" data.getVec).map fun v => .AttestationIdManufacturer v
  else if tag = Tag.ATTESTATION_ID_MODEL then
    (sqlGet "ATTESTATION_ID_MODEL" data.getVec).map fun v => .AttestationIdModel v
  else if tag = Tag.VENDOR_PATCHLEVEL then
    (sqlGet "VENDOR_PATCHLEVEL" data.getI32).map fun v => .VendorPatchLevel v
  else if tag = Tag.BOOT_PATCHLEVEL then
    (sqlGet "BOOT_PATCHLEVEL" data.getI32).map fun v => .BootPatchLevel v
  else if tag = Tag.ASSOCIATED_DATA then
    (sqlGet "ASSOCIATED_DATA" data.getVec).map fun v => .AssociatedData v
  else if tag = Tag.NONCE then
    (sqlGet "NONCE" data.getVec).map fun v => .Nonce v
  else if tag = Tag.MAC_LENGTH then
    (sqlGet "MAC_LENGTH" data.getI32).map fun v => .MacLength v
  else if tag = Tag.RESET_SINCE_ID_ROTATION then .ok .ResetSinceIdRotation
  else if tag = Tag.CONFIRMATION_TOKEN then
    (sqlGet "CONFIRMATION_TOKEN" data.getVec).map fun v => .ConfirmationToken v
  else if tag = Tag.CERTIFICATE_SERIAL then
    (sqlGet "CERTIFICATE_SERIAL" data.getVec).map fun v => .CertificateSerial v
  else if tag = Tag.CERTIFICATE_SUBJECT then
    (sqlGet "CERTIFICATE_SUBJECT" data.getVec).map fun v => .CertificateSubject v
  else if tag = Tag.CERTIFICATE_NOT_BEFORE then
    (sqlGet "CERTIFICATE_NOT_BEFORE" data.getI64).map fun v => .CertificateNotBefore v
  else if tag = Tag.CERTIFICATE_NOT_AFTER then
    (sqlGet "CERTIFICATE_NOT_AFTER" data.getI64).map fun v => .CertificateNotAfter v
  else if tag = Tag.MAX_BOOT_LEVEL then
    (sqlGet "MAX_BOOT_LEVEL" data.getI32).map fun v => .MaxBootLevel v
  else .ok .Invalid

/-- AIDL union `android.hardware.security.keymint.KeyParameterValue`
(imported as `KmKeyParameterValue`): one case per wire field. -/
inductive KmKeyParameterValue where
  | Invalid (v : Int)
  | Algorithm (v : Aidl.Algorithm)
  | BlockMode (v : Aidl.BlockMode)
  | PaddingMode (v : Aidl.PaddingMode)
  | Digest (v : Aidl.Digest)
  | EcCurve (v : Aidl.EcCurve)
  | Origin (v : Aidl.KeyOrigin)
  | KeyPurpose (v : Aidl.KeyPurpose)
  | HardwareAuthenticatorType (v : Aidl.HardwareAuthenticatorType)
  | SecurityLevel (v : Aidl.SecurityLevel)
  | BoolValue (v : Bool)
  | Integer (v : Int)
  | LongInteger (v : Int)
  | DateTime (v : Int)
  | Blob (v : List Nat)
deriving DecidableEq

/-- AIDL parcelable `android.hardware.security.keymint.KeyParameter`
(imported as `KmKeyParameter`): a tag paired with a wire union value. -/
structure KmKeyParameter where
  tag : Tag
  value : KmKeyParameterValue
deriving DecidableEq

/-- `impl KpDefault for i32 { fn default() -> Self { 0 } }`. -/
def KpDefault.i32 : Int := 0

/-- `impl KpDefault for bool { fn default() -> Self { true } }`: boolean
parameters are implicitly true if present. -/
def KpDefault.bool : Bool := true

/-- `implement_try_from_to_km_parameter!` (@from): `impl From<KmKeyParameter>
for KeyParameterValue`. One arm per table row matching the row's tag and wire
field; payload-less rows match any payload of their field (`$field_name(_)`);
everything else falls to `_ => KeyParameterValue::Invalid`. The Rust match
arms carry pairwise distinct tag patterns, so the ordered match is encoded as
a chain of tag tests, each arm degrading to the catch-all on a field
mismatch. -/
def KeyParameterValue.fromKm (kp : KmKeyParameter) : KeyParameterValue :=
  if kp.tag = Tag.INVALID then
    match kp.value with | .Invalid _ => .Invalid | _ => .Invalid
  else if kp.tag = Tag.PURPOSE then
    match kp.value with | .KeyPurpose v => .KeyPurpose v | _ => .Invalid
  else if kp.tag = Tag.ALGORITHM then
    match kp.value with | .Algorithm v => .Algorithm v | _ => .Invalid
  else if kp.tag = Tag.KEY_SIZE then
    match kp.value with | .Integer v => .KeySize v | _ => .Invalid
  else if kp.tag = Tag.BLOCK_MODE then
    match kp.value with | .BlockMode v => .BlockMode v | _ => .Invalid
  else if kp.tag = Tag.DIGEST then
    match kp.value with | .Digest v => .Digest v | _ => .Invalid
  else if kp.tag = Tag.RSA_OAEP_MGF_DIGEST then
    match kp.value with | .Digest v => .RsaOaepMgfDigest v | _ => .Invalid
  else if kp.tag = Tag.PADDING then
    match kp.value with | .PaddingMode v => .PaddingMode v | _ => .Invalid
  else if kp.tag = Tag.CALLER_NONCE then
    match kp.value with | .BoolValue _ => .CallerNonce | _ => .Invalid
  else if kp.tag = Tag.MIN_MAC_LENGTH then
    match kp.value with | .Integer v => .MinMacLength v | _ => .Invalid
  else if kp.tag = Tag.EC_CURVE then
    match kp.value with | .EcCurve v => .EcCurve v | _ => .Invalid
  else if kp.tag = Tag.RSA_PUBLIC_EXPONENT then
    match kp.value with | .LongInteger v => .RSAPublicExponent v | _ => .Invalid
  else if kp.tag = Tag.INCLUDE_UNIQUE_ID then
    match kp.value with | .BoolValue _ => .IncludeUniqueID | _ => .Invalid
  else if kp.tag = Tag.BOOTLOADER_ONLY then
    match kp.value with | .BoolValue _ => .BootLoaderOnly | _ => .Invalid
  else if kp.tag = Tag.ROLLBACK_RESISTANCE then
    match kp.value with | .BoolValue _ => .RollbackResistance | _ => .Invalid
  else if kp.tag = Tag.EARLY_BOOT_ONLY then
    match kp.value with | .BoolValue _ => .EarlyBootOnly | _ => .Invalid
  else if kp.tag = Tag.ACTIVE_DATETIME then
    match kp.value with | .DateTime v => .ActiveDateTime v | _ => .Invalid
  else if kp.tag = Tag.ORIGINATION_EXPIRE_DATETIME then
    match kp.value with | .DateTime v => .OriginationExpireDateTime v | _ => .Invalid
  else if kp.tag = Tag.USAGE_EXPIRE_DATETIME then
    match kp.value with | .DateTime v => .UsageExpireDateTime v | _ => .Invalid
  else if kp.tag = Tag.MIN_SECONDS_BETWEEN_OPS then
    match kp.value with | .Integer v => .MinSecondsBetweenOps v | _ => .Invalid
  else if kp.tag = Tag.MAX_USES_PER_BOOT then
    match kp.value with | .Integer v => .MaxUsesPerBoot v | _ => .Invalid
  else if kp.tag = Tag.USAGE_COUNT_LIMIT then
    match kp.value with | .Integer v => .UsageCountLimit v | _ => .Invalid
  else if kp.tag = Tag.USER_ID then
    match kp.value with | .Integer v => .UserID v | _ => .Invalid
  else if kp.tag = Tag.USER_SECURE_ID then
    match kp.value with | .LongInteger v => .UserSecureID v | _ => .Invalid
  else if kp.tag = Tag.NO_AUTH_REQUIRED then
    match kp.value with | .BoolValue _ => .NoAuthRequired | _ => .Invalid
  else if kp.tag = Tag.USER_AUTH_TYPE then
    match kp.value with
    | .HardwareAuthenticatorType v => .HardwareAuthenticatorType v
    | _ => .Invalid
  else if kp.tag = Tag.AUTH_TIMEOUT then
    match kp.value with | .Integer v => .AuthTimeout v | _ => .Invalid
  else if kp.tag = Tag.ALLOW_WHILE_ON_BODY then
    match kp.value with | .BoolValue _ => .AllowWhileOnBody | _ => .Invalid
  else if kp.tag = Tag.TRUSTED_USER_PRESENCE_REQUIRED then
    match kp.value with | .BoolValue _ => .TrustedUserPresenceRequired | _ => .Invalid
  else if kp.tag = Tag.TRUSTED_CONFIRMATION_REQUIRED then
    match kp.value with | .BoolValue _ => .TrustedConfirmationRequired | _ => .Invalid
  else if kp.tag = Tag.UNLOCKED_DEVICE_REQUIRED then
    match kp.value with | .BoolValue _ => .UnlockedDeviceRequired | _ => .Invalid
  else if kp.tag = Tag.APPLICATION_ID then
    match kp.value with | .Blob v => .ApplicationID v | _ => .Invalid
  else if kp.tag = Tag.APPLICATION_DATA then
    match kp.value with | .Blob v => .ApplicationData v | _ => .Invalid
  else if kp.tag = Tag.CREATION_DATETIME then
    match kp.value with | .DateTime v => .CreationDateTime v | _ => .Invalid
  else if kp.tag = Tag.ORIGIN then
    match kp.value with | .Origin v => .KeyOrigin v | _ => .Invalid
  else if kp.tag = Tag.ROOT_OF_TRUST then
    match kp.value with | .Blob v => .RootOfTrust v | _ => .Invalid
  else if kp.tag = Tag.OS_VERSION then
    match kp.value with | .Integer v => .OSVersion v | _ => .Invalid
  else if kp.tag = Tag.OS_PATCHLEVEL then
    match kp.value with | .Integer v => .OSPatchLevel v | _ => .Invalid
  else if kp.tag = Tag.UNIQUE_ID then
    match kp.value with | .Blob v => .UniqueID v | _ => .Invalid
  else if kp.tag = Tag.ATTESTATION_CHALLENGE then
    match kp.value with | .Blob v => .AttestationChallenge v | _ => .Invalid
  else if kp.tag = Tag.ATTESTATION_APPLICATION_ID then
    match kp.value with | .Blob v => .AttestationApplicationID v | _ => .Invalid
  else if kp.tag = Tag.ATTESTATION_ID_BRAND then
    match kp.value with | .Blob v => .AttestationIdBrand v | _ => .Invalid
  else if kp.tag = Tag.ATTESTATION_ID_DEVICE then
    match kp.value with | .Blob v => .AttestationIdDevice v | _ => .Invalid
  else if kp.tag = Tag.ATTESTATION_ID_PRODUCT then
    match kp.value with | .Blob v => .AttestationIdProduct v | _ => .Invalid
  else if kp.tag = Tag.ATTESTATION_ID_SERIAL then
    match kp.value with | .Blob v => .AttestationIdSerial v | _ => .Invalid
  else if kp.tag = Tag.ATTESTATION_ID_IMEI then
    match kp.value with | .Blob v => .AttestationIdIMEI v | _ => .Invalid
  else if kp.tag = Tag.ATTESTATION_ID_SECOND_IMEI then
    match kp.value with | .Blob v => .AttestationIdSecondIMEI v | _ => .Invalid
  else if kp.tag = Tag.ATTESTATION_ID_MEID then
    match kp.value with | .Blob v => .AttestationIdMEID v | _ => .Invalid
  else if kp.tag = Tag.ATTESTATION_ID_MANUFACTURER then
    match kp.value with | .Blob v => .AttestationIdManufacturer v | _ => .Invalid
  else if kp.tag = Tag.ATTESTATION_ID_MODEL then
    match kp.value with | .Blob v => .AttestationIdModel v | _ => .Invalid
  else if kp.tag = Tag.VENDOR_PATCHLEVEL then
    match kp.value with | .Integer v => .VendorPatchLevel v | _ => .Invalid
  else if kp.tag = Tag.BOOT_PATCHLEVEL then
    match kp.value with | .Integer v => .BootPatchLevel v | _ => .Invalid
  else if kp.tag = Tag.ASSOCIATED_DATA then
    match kp.value with | .Blob v => .AssociatedData v | _ => .Invalid
  else if kp.tag = Tag.NONCE then
    match kp.value with | .Blob v => .Nonce v | _ => .Invalid
  else if kp.tag = Tag.MAC_LENGTH then
    match kp.value with | .Integer v => .MacLength v | _ => .Invalid
  else if kp.tag = Tag.RESET_SINCE_ID_ROTATION then
    match kp.value with | .BoolValue _ => .ResetSinceIdRotation | _ => .Invalid
  else if kp.tag = Tag.CONFIRMATION_TOKEN then
    match kp.value with | .Blob v => .ConfirmationToken v | _ => .Invalid
  else if kp.tag = Tag.CERTIFICATE_SERIAL then
    match kp.value with | .Blob v => .CertificateSerial v | _ => .Invalid
  else if kp.tag = Tag.CERTIFICATE_SUBJECT then
    match kp.value with | .Blob v => .CertificateSubject v | _ => .Invalid
  else if kp.tag = Tag.CERTIFICATE_NOT_BEFORE then
    match kp.value with | .DateTime v => .CertificateNotBefore v | _ => .Invalid
  else if kp.tag = Tag.CERTIFICATE_NOT_AFTER then
    match kp.value with | .DateTime v => .CertificateNotAfter v | _ => .Invalid
  else if kp.tag = Tag.MAX_BOOT_LEVEL then
    match kp.value with | .Integer v => .MaxBootLevel v | _ => .Invalid
  else .Invalid

/-- `implement_try_from_to_km_parameter!` (@into): `impl From<KeyParameterValue>
for KmKeyParameter`. Payload-carrying variants keep their payload in the row's
wire field; payload-less variants synthesize `KpDefault::default()` for their
field (`true` for `BoolValue`, `0` for `Invalid`). -/
def KeyParameterValue.intoKm : KeyParameterValue → KmKeyParameter
  | .Invalid => ⟨Tag.INVALID, .Invalid KpDefault.i32⟩
  | .KeyPurpose v => ⟨Tag.PURPOSE, .KeyPurpose v⟩
  | .Algorithm v => ⟨Tag.ALGORITHM, .Algorithm v⟩
  | .KeySize v => ⟨Tag.KEY_SIZE, .Integer v⟩
  | .BlockMode v => ⟨Tag.BLOCK_MODE, .BlockMode v⟩
  | .Digest v => ⟨Tag.DIGEST, .Digest v⟩
  | .RsaOaepMgfDigest v => ⟨Tag.RSA_OAEP_MGF_DIGEST, .Digest v⟩
  | .PaddingMode v => ⟨Tag.PADDING, .PaddingMode v⟩
  | .CallerNonce => ⟨Tag.CALLER_NONCE, .BoolValue KpDefault.bool⟩
  | .MinMacLength v => ⟨Tag.MIN_MAC_LENGTH, .Integer v⟩
  | .EcCurve v => ⟨Tag.EC_CURVE, .EcCurve v⟩
  | .RSAPublicExponent v => ⟨Tag.RSA_PUBLIC_EXPONENT, .LongInteger v⟩
  | .IncludeUniqueID => ⟨Tag.INCLUDE_UNIQUE_ID, .BoolValue KpDefault.bool⟩
  | .BootLoaderOnly => ⟨Tag.BOOTLOADER_ONLY, .BoolValue KpDefault.bool⟩
  | .RollbackResistance => ⟨Tag.ROLLBACK_RESISTANCE, .BoolValue KpDefault.bool⟩
  | .EarlyBootOnly => ⟨Tag.EARLY_BOOT_ONLY, .BoolValue KpDefault.bool⟩
  | .ActiveDateTime v => ⟨Tag.ACTIVE_DATETIME, .DateTime v⟩
  | .OriginationExpireDateTime v => ⟨Tag.ORIGINATION_EXPIRE_DATETIME, .DateTime v⟩
  | .UsageExpireDateTime v => ⟨Tag.USAGE_EXPIRE_DATETIME, .DateTime v⟩
  | .MinSecondsBetweenOps v => ⟨Tag.MIN_SECONDS_BETWEEN_OPS, .Integer v⟩
  | .MaxUsesPerBoot v => ⟨Tag.MAX_USES_PER_BOOT, .Integer v⟩
  | .UsageCountLimit v => ⟨Tag.USAGE_COUNT_LIMIT, .Integer v⟩
  | .UserID v => ⟨Tag.USER_ID, .Integer v⟩
  | .UserSecureID v => ⟨Tag.USER_SECURE_ID, .LongInteger v⟩
  | .NoAuthRequired => ⟨Tag.NO_AUTH_REQUIRED, .BoolValue KpDefault.bool⟩
  | .HardwareAuthenticatorType v => ⟨Tag.USER_AUTH_TYPE, .HardwareAuthenticatorType v⟩
  | .AuthTimeout v => ⟨Tag.AUTH_TIMEOUT, .Integer v⟩
  | .AllowWhileOnBody => ⟨Tag.ALLOW_WHILE_ON_BODY, .BoolValue KpDefault.bool⟩
  | .TrustedUserPresenceRequired =>
    ⟨Tag.TRUSTED_USER_PRESENCE_REQUIRED, .BoolValue KpDefault.bool⟩
  | .TrustedConfirmationRequired =>
    ⟨Tag.TRUSTED_CONFIRMATION_REQUIRED, .BoolValue KpDefault.bool⟩
  | .UnlockedDeviceRequired => ⟨Tag.UNLOCKED_DEVICE_REQUIRED, .BoolValue KpDefault.bool⟩
  | .ApplicationID v => ⟨Tag.APPLICATION_ID, .Blob v⟩
  | .ApplicationData v => ⟨Tag.APPLICATION_DATA, .Blob v⟩
  | .CreationDateTime v => ⟨Tag.CREATION_DATETIME, .DateTime v⟩
  | .KeyOrigin v => ⟨Tag.ORIGIN, .Origin v⟩
  | .RootOfTrust v => ⟨Tag.ROOT_OF_TRUST, .Blob v⟩
  | .OSVersion v => ⟨Tag.OS_VERSION, .Integer v⟩
  | .OSPatchLevel v => ⟨Tag.OS_PATCHLEVEL, .Integer v⟩
  | .UniqueID v => ⟨Tag.UNIQUE_ID, .Blob v⟩
  | .AttestationChallenge v => ⟨Tag.ATTESTATION_CHALLENGE, .Blob v⟩
  | .AttestationApplicationID v => ⟨Tag.ATTESTATION_APPLICATION_ID, .Blob v⟩
  | .AttestationIdBrand v => ⟨Tag.ATTESTATION_ID_BRAND, .Blob v⟩
  | .AttestationIdDevice v => ⟨Tag.ATTESTATION_ID_DEVICE, .Blob v⟩
  | .AttestationIdProduct v => ⟨Tag.ATTESTATION_ID_PRODUCT, .Blob v⟩
  | .AttestationIdSerial v => ⟨Tag.ATTESTATION_ID_SERIAL, .Blob v⟩
  | .AttestationIdIMEI v => ⟨Tag.ATTESTATION_ID_IMEI, .Blob v⟩
  | .AttestationIdSecondIMEI v => ⟨Tag.ATTESTATION_ID_SECOND_IMEI, .Blob v⟩
  | .AttestationIdMEID v => ⟨Tag.ATTESTATION_ID_MEID, .Blob v⟩
  | .AttestationIdManufacturer v => ⟨Tag.ATTESTATION_ID_MANUFACTURER, .Blob v⟩
  | .AttestationIdModel v => ⟨Tag.ATTESTATION_ID_MODEL, .Blob v⟩
  | .VendorPatchLevel v => ⟨Tag.VENDOR_PATCHLEVEL, .Integer v⟩
  | .BootPatchLevel v => ⟨Tag.BOOT_PATCHLEVEL, .Integer v⟩
  | .AssociatedData v => ⟨Tag.ASSOCIATED_DATA, .Blob v⟩
  | .Nonce v => ⟨Tag.NONCE, .Blob v⟩
  | .MacLength v => ⟨Tag.MAC_LENGTH, .Integer v⟩
  | .ResetSinceIdRotation => ⟨Tag.RESET_SINCE_ID_ROTATION, .BoolValue KpDefault.bool⟩
  | .ConfirmationToken v => ⟨Tag.CONFIRMATION_TOKEN, .Blob v⟩
  | .CertificateSerial v => ⟨Tag.CERTIFICATE_SERIAL, .Blob v⟩
  | .CertificateSubject v => ⟨Tag.CERTIFICATE_SUBJECT, .Blob v⟩
  | .CertificateNotBefore v => ⟨Tag.CERTIFICATE_NOT_BEFORE, .DateTime v⟩
  | .CertificateNotAfter v => ⟨Tag.CERTIFICATE_NOT_AFTER, .DateTime v⟩
  | .MaxBootLevel v => ⟨Tag.MAX_BOOT_LEVEL, .Integer v⟩

/-- The tags column of the key-parameter table, in declaration order (one
entry per `KeyParameterValue` variant). -/
def tableTags : List Tag :=
  [Tag.INVALID, Tag.PURPOSE, Tag.ALGORITHM, Tag.KEY_SIZE, Tag.BLOCK_MODE,
   Tag.DIGEST, Tag.RSA_OAEP_MGF_DIGEST, Tag.PADDING, Tag.CALLER_NONCE,
   Tag.MIN_MAC_LENGTH, Tag.EC_CURVE, Tag.RSA_PUBLIC_EXPONENT,
   Tag.INCLUDE_UNIQUE_ID, Tag.BOOTLOADER_ONLY, Tag.ROLLBACK_RESISTANCE,
   Tag.EARLY_BOOT_ONLY, Tag.ACTIVE_DATETIME, Tag.ORIGINATION_EXPIRE_DATETIME,
   Tag.USAGE_EXPIRE_DATETIME, Tag.MIN_SECONDS_BETWEEN_OPS,
   Tag.MAX_USES_PER_BOOT, Tag.USAGE_COUNT_LIMIT, Tag.USER_ID,
   Tag.USER_SECURE_ID, Tag.NO_AUTH_REQUIRED, Tag.USER_AUTH_TYPE,
   Tag.AUTH_TIMEOUT, Tag.ALLOW_WHILE_ON_BODY,
   Tag.TRUSTED_USER_PRESENCE_REQUIRED, Tag.TRUSTED_CONFIRMATION_REQUIRED,
   Tag.UNLOCKED_DEVICE_REQUIRED, Tag.APPLICATION_ID, Tag.APPLICATION_DATA,
   Tag.CREATION_DATETIME, Tag.ORIGIN, Tag.ROOT_OF_TRUST, Tag.OS_VERSION,
   Tag.OS_PATCHLEVEL, Tag.UNIQUE_ID, Tag.ATTESTATION_CHALLENGE,
   Tag.ATTESTATION_APPLICATION_ID, Tag.ATTESTATION_ID_BRAND,
   Tag.ATTESTATION_ID_DEVICE, Tag.ATTESTATION_ID_PRODUCT,
   Tag.ATTESTATION_ID_SERIAL, Tag.ATTESTATION_ID_IMEI,
   Tag.ATTESTATION_ID_SECOND_IMEI, Tag.ATTESTATION_ID_MEID,
   Tag.ATTESTATION_ID_MANUFACTURER, Tag.ATTESTATION_ID_MODEL,
   Tag.VENDOR_PATCHLEVEL, Tag.BOOT_PATCHLEVEL, Tag.ASSOCIATED_DATA,
   Tag.NONCE, Tag.MAC_LENGTH, Tag.RESET_SINCE_ID_ROTATION,
   Tag.CONFIRMATION_TOKEN, Tag.CERTIFICATE_SERIAL, Tag.CERTIFICATE_SUBJECT,
   Tag.CERTIFICATE_NOT_BEFORE, Tag.CERTIFICATE_NOT_AFTER, Tag.MAX_BOOT_LEVEL]

/-- The three shapes a `Primitive` can take (the claim's "case"). -/
inductive PrimCase where
  | I32
  | I64
  | Bytes
deriving DecidableEq

/-- The shape of a `Primitive`. -/
def Primitive.case : Primitive → PrimCase
  | .I64 _ => .I64
  | .I32 _ => .I32
  | .Vec _ => .Bytes

/-- The payload-carrying rows of the key-parameter table: the row's tag, its
`stringify!`-ed tag name, and the `AssociatePrimitive` primitive type of the
row's payload (`i32` for the AIDL-enum wrappers and `i32` payloads, `i64` for
long/datetime payloads, bytes for `Vec<u8>` payloads). The twelve payload-less
rows (tag `INVALID` and the boolean flags) have no primitive representation
and no entry here. -/
def primTable : List (Tag × String × PrimCase) :=
  [(Tag.PURPOSE, "PURPOSE", .I32),
   (Tag.ALGORITHM, "ALGORITHM", .I32),
   (Tag.KEY_SIZE, "KEY_SIZE", .I32),
   (Tag.BLOCK_MODE, "BLOCK_MODE", .I32),
   (Tag.DIGEST, "DIGEST", .I32),
   (Tag.RSA_OAEP_MGF_DIGEST, "RSA_OAEP_MGF_DIGEST", .I32),
   (Tag.PADDING, "PADDING", .I32),
   (Tag.MIN_MAC_LENGTH, "MIN_MAC_LENGTH", .I32),
   (Tag.EC_CURVE, "EC_CURVE", .I32),
   (Tag.RSA_PUBLIC_EXPONENT, "RSA_PUBLIC_EXPONENT", .I64),
   (Tag.ACTIVE_DATETIME, "ACTIVE_DATETIME", .I64),
   (Tag.ORIGINATION_EXPIRE_DATETIME, "ORIGINATION_EXPIRE_DATETIME", .I64),
   (Tag.USAGE_EXPIRE_DATETIME, "USAGE_EXPIRE_DATETIME", .I64),
   (Tag.MIN_SECONDS_BETWEEN_OPS, "MIN_SECONDS_BETWEEN_OPS", .I32),
   (Tag.MAX_USES_PER_BOOT, "MAX_USES_PER_BOOT", .I32),
   (Tag.USAGE_COUNT_LIMIT, "USAGE_COUNT_LIMIT", .I32),
   (Tag.USER_ID, "USER_ID", .I32),
   (Tag.USER_SECURE_ID, "USER_SECURE_ID", .I64),
   (Tag.USER_AUTH_TYPE, "USER_AUTH_TYPE", .I32),
   (Tag.AUTH_TIMEOUT, "AUTH_TIMEOUT", .I32),
   (Tag.APPLICATION_ID, "APPLICATION_ID", .Bytes),
   (Tag.APPLICATION_DATA, "APPLICATION_DATA", .Bytes),
   (Tag.CREATION_DATETIME, "CREATION_DATETIME", .I64),
   (Tag.ORIGIN, "ORIGIN", .I32),
   (Tag.ROOT_OF_TRUST, "ROOT_OF_TRUST", .Bytes),
   (Tag.OS_VERSION, "OS_VERSION", .I32),
   (Tag.OS_PATCHLEVEL, "OS_PATCHLEVEL", .I32),
   (Tag.UNIQUE_ID, "UNIQUE_ID", .Bytes),
   (Tag.ATTESTATION_CHALLENGE, "ATTESTATION_CHALLENGE", .Bytes),
   (Tag.ATTESTATION_APPLICATION_ID, "ATTESTATION_APPLICATION_ID", .Bytes),
   (Tag.ATTESTATION_ID_BRAND, "ATTESTATION_ID_BRAND", .Bytes),
   (Tag.ATTESTATION_ID_DEVICE, "ATTESTATION_ID_DEVICE", .Bytes),
   (Tag.ATTESTATION_ID_PRODUCT, "ATTESTATION_ID_PRODUCT", .Bytes),
   (Tag.ATTESTATION_ID_SERIAL, "ATTESTATION_ID_SERIAL", .Bytes),
   (Tag.ATTESTATION_ID_IMEI, "ATTESTATION_ID_IMEI", .Bytes),
   (Tag.ATTESTATION_ID_SECOND_IMEI, "ATTESTATION_ID_SECOND_IMEI", .Bytes),
   (Tag.ATTESTATION_ID_MEID, "ATTESTATION_ID_MEID", .Bytes),
   (Tag.ATTESTATION_ID_MANUFACTURER, "ATTESTATION_ID_MANUFACTURER", .Bytes),
   (Tag.ATTESTATION_ID_MODEL, "ATTESTATION_ID_MODEL", .Bytes),
   (Tag.VENDOR_PATCHLEVEL, "VENDOR_PATCHLEVEL", .I32),
   (Tag.BOOT_PATCHLEVEL, "BOOT_PATCHLEVEL", .I32),
   (Tag.ASSOCIATED_DATA, "ASSOCIATED_DATA", .Bytes),
   (Tag.NONCE, "NONCE", .Bytes),
   (Tag.MAC_LENGTH, "MAC_LENGTH", .I32),
   (Tag.CONFIRMATION_TOKEN, "CONFIRMATION_TOKEN", .Bytes),
   (Tag.CERTIFICATE_SERIAL, "CERTIFICATE_SERIAL", .Bytes),
   (Tag.CERTIFICATE_SUBJECT, "CERTIFICATE_SUBJECT", .Bytes),
   (Tag.CERTIFICATE_NOT_BEFORE, "CERTIFICATE_NOT_BEFORE", .I64),
   (Tag.CERTIFICATE_NOT_AFTER, "CERTIFICATE_NOT_AFTER", .I64),
   (Tag.MAX_BOOT_LEVEL, "MAX_BOOT_LEVEL", .I32)]

/-- The typed `SqlField` read for a given payload class, packaged as a
`Primitive` (the shape the class decodes). -/
def SqlField.getPrim (data : SqlField) : PrimCase → Except Unit Primitive
  | .I32 => data.getI32.map .I32
  | .I64 => data.getI64.map .I64
  | .Bytes => data.getVec.map .Vec

/-- The `Primitive` a variant's payload erases to: `to_primitive` composed
with `Into<Primitive>` (an `i32` for the AIDL-enum wrappers, the `i32`/`i64`
or byte vector itself otherwise); `none` for the payload-less variants, which
have no primitive representation. -/
def KeyParameterValue.primitiveOf : KeyParameterValue → Option Primitive
  | .Invalid => none
  | .KeyPurpose v => some (.I32 v.to_primitive)
  | .Algorithm v => some (.I32 v.to_primitive)
  | .KeySize v => some (.I32 v)
  | .BlockMode v => some (.I32 v.to_primitive)
  | .Digest v => some (.I32 v.to_primitive)
  | .RsaOaepMgfDigest v => some (.I32 v.to_primitive)
  | .PaddingMode v => some (.I32 v.to_primitive)
  | .CallerNonce => none
  | .MinMacLength v => some (.I32 v)
  | .EcCurve v => some (.I32 v.to_primitive)
  | .RSAPublicExponent v => some (.I64 v)
  | .IncludeUniqueID => none
  | .BootLoaderOnly => none
  | .RollbackResistance => none
  | .EarlyBootOnly => none
  | .ActiveDateTime v => some (.I64 v)
  | .OriginationExpireDateTime v => some (.I64 v)
  | .UsageExpireDateTime v => some (.I64 v)
  | .MinSecondsBetweenOps v => some (.I32 v)
  | .MaxUsesPerBoot v => some (.I32 v)
  | .UsageCountLimit v => some (.I32 v)
  | .UserID v => some (.I32 v)
  | .UserSecureID v => some (.I64 v)
  | .NoAuthRequired => none
  | .HardwareAuthenticatorType v => some (.I32 v.to_primitive)
  | .AuthTimeout v => some (.I32 v)
  | .AllowWhileOnBody => none
  | .TrustedUserPresenceRequired => none
  | .TrustedConfirmationRequired => none
  | .UnlockedDeviceRequired => none
  | .ApplicationID v => some (.Vec v)
  | .ApplicationData v => some (.Vec v)
  | .CreationDateTime v => some (.I64 v)
  | .KeyOrigin v => some (.I32 v.to_primitive)
  | .RootOfTrust v => some (.Vec v)
  | .OSVersion v => some (.I32 v)
  | .OSPatchLevel v => some (.I32 v)
  | .UniqueID v => some (.Vec v)
  | .AttestationChallenge v => some (.Vec v)
  | .AttestationApplicationID v => some (.Vec v)
  | .AttestationIdBrand v => some (.Vec v)
  | .AttestationIdDevice v => some (.Vec v)
  | .AttestationIdProduct v => some (.Vec v)
  | .AttestationIdSerial v => some (.Vec v)
  | .AttestationIdIMEI v => some (.Vec v)
  | .AttestationIdSecondIMEI v => some (.Vec v)
  | .AttestationIdMEID v => some (.Vec v)
  | .AttestationIdManufacturer v => some (.Vec v)
  | .AttestationIdModel v => some (.Vec v)
  | .VendorPatchLevel v => some (.I32 v)
  | .BootPatchLevel v => some (.I32 v)
  | .AssociatedData v => some (.Vec v)
  | .Nonce v => some (.Vec v)
  | .MacLength v => some (.I32 v)
  | .ResetSinceIdRotation => none
  | .ConfirmationToken v => some (.Vec v)
  | .CertificateSerial v => some (.Vec v)
  | .CertificateSubject v => some (.Vec v)
  | .CertificateNotBefore v => some (.I64 v)
  | .CertificateNotAfter v => some (.I64 v)
  | .MaxBootLevel v => some (.I32 v)

/-- The position of a variant's row in the table (a numbering of the
constructors in declaration order; payloads are irrelevant). -/
def KeyParameterValue.ctorIdx : KeyParameterValue → Nat
  | .Invalid => 0
  | .KeyPurpose _ => 1
  | .Algorithm _ => 2
  | .KeySize _ => 3
  | .BlockMode _ => 4
  | .Digest _ => 5
  | .RsaOaepMgfDigest _ => 6
  | .PaddingMode _ => 7
  | .CallerNonce => 8
  | .MinMacLength _ => 9
  | .EcCurve _ => 10
  | .RSAPublicExponent _ => 11
  | .IncludeUniqueID => 12
  | .BootLoaderOnly => 13
  | .RollbackResistance => 14
  | .EarlyBootOnly => 15
  | .ActiveDateTime _ => 16
  | .OriginationExpireDateTime _ => 17
  | .UsageExpireDateTime _ => 18
  | .MinSecondsBetweenOps _ => 19
  | .MaxUsesPerBoot _ => 20
  | .UsageCountLimit _ => 21
  | .UserID _ => 22
  | .UserSecureID _ => 23
  | .NoAuthRequired => 24
  | .HardwareAuthenticatorType _ => 25
  | .AuthTimeout _ => 26
  | .AllowWhileOnBody => 27
  | .TrustedUserPresenceRequired => 28
  | .TrustedConfirmationRequired => 29
  | .UnlockedDeviceRequired => 30
  | .ApplicationID _ => 31
  | .ApplicationData _ => 32
  | .CreationDateTime _ => 33
  | .KeyOrigin _ => 34
  | .RootOfTrust _ => 35
  | .OSVersion _ => 36
  | .OSPatchLevel _ => 37
  | .UniqueID _ => 38
  | .AttestationChallenge _ => 39
  | .AttestationApplicationID _ => 40
  | .AttestationIdBrand _ => 41
  | .AttestationIdDevice _ => 42
  | .AttestationIdProduct _ => 43
  | .AttestationIdSerial _ => 44
  | .AttestationIdIMEI _ => 45
  | .AttestationIdSecondIMEI _ => 46
  | .AttestationIdMEID _ => 47
  | .AttestationIdManufacturer _ => 48
  | .AttestationIdModel _ => 49
  | .VendorPatchLevel _ => 50
  | .BootPatchLevel _ => 51
  | .AssociatedData _ => 52
  | .Nonce _ => 53
  | .MacLength _ => 54
  | .ResetSinceIdRotation => 55
  | .ConfirmationToken _ => 56
  | .CertificateSerial _ => 57
  | .CertificateSubject _ => 58
  | .CertificateNotBefore _ => 59
  | .CertificateNotAfter _ => 60
  | .MaxBootLevel _ => 61

/-- The spec's description of `from_wire` (§4.2): "matches the wire record's
(tag, field) pair against the table; on the exact expected pairing constructs
the matching variant; on any mismatch (unexpected field for that tag, or
unknown tag) returns Invalid". This definition follows the spec's words,
organized by wire field: `some v` when the (tag, field) pair is exactly a
table row's, `none` on any mismatch. It is compared with the generated
`From<KmKeyParameter>` implementation (`fromKm`). -/
def wireTableMatch (kp : KmKeyParameter) : Option KeyParameterValue :=
  match kp.value with
  | .Invalid _ => if kp.tag = Tag.INVALID then some .Invalid else none
  | .Algorithm v => if kp.tag = Tag.ALGORITHM then some (.Algorithm v) else none
  | .BlockMode v => if kp.tag = Tag.BLOCK_MODE then some (.BlockMode v) else none
  | .PaddingMode v => if kp.tag = Tag.PADDING then some (.PaddingMode v) else none
  | .Digest v =>
    if kp.tag = Tag.DIGEST then some (.Digest v)
    else if kp.tag = Tag.RSA_OAEP_MGF_DIGEST then some (.RsaOaepMgfDigest v)
    else none
  | .EcCurve v => if kp.tag = Tag.EC_CURVE then some (.EcCurve v) else none
  | .Origin v => if kp.tag = Tag.ORIGIN then some (.KeyOrigin v) else none
  | .KeyPurpose v => if kp.tag = Tag.PURPOSE then some (.KeyPurpose v) else none
  | .HardwareAuthenticatorType v =>
    if kp.tag = Tag.USER_AUTH_TYPE then some (.HardwareAuthenticatorType v) else none
  | .SecurityLevel _ => none
  | .BoolValue _ =>
    if kp.tag = Tag.CALLER_NONCE then some .CallerNonce
    else if kp.tag = Tag.INCLUDE_UNIQUE_ID then some .IncludeUniqueID
    else if kp.tag = Tag.BOOTLOADER_ONLY then some .BootLoaderOnly
    else if kp.tag = Tag.ROLLBACK_RESISTANCE then some .RollbackResistance
    else if kp.tag = Tag.EARLY_BOOT_ONLY then some .EarlyBootOnly
    else if kp.tag = Tag.NO_AUTH_REQUIRED then some .NoAuthRequired
    else if kp.tag = Tag.ALLOW_WHILE_ON_BODY then some .AllowWhileOnBody
    else if kp.tag = Tag.TRUSTED_USER_PRESENCE_REQUIRED then
      some .TrustedUserPresenceRequired
    else if kp.tag = Tag.TRUSTED_CONFIRMATION_REQUIRED then
      some .TrustedConfirmationRequired
    else if kp.tag = Tag.UNLOCKED_DEVICE_REQUIRED then some .UnlockedDeviceRequired
    else if kp.tag = Tag.RESET_SINCE_ID_ROTATION then some .ResetSinceIdRotation
    else none
  | .Integer v =>
    if kp.tag = Tag.KEY_SIZE then some (.KeySize v)
    else if kp.tag = Tag.MIN_MAC_LENGTH then some (.MinMacLength v)
    else if kp.tag = Tag.MIN_SECONDS_BETWEEN_OPS then some (.MinSecondsBetweenOps v)
    else if kp.tag = Tag.MAX_USES_PER_BOOT then some (.MaxUsesPerBoot v)
    else if kp.tag = Tag.USAGE_COUNT_LIMIT then some (.UsageCountLimit v)
    else if kp.tag = Tag.USER_ID then some (.UserID v)
    else if kp.tag = Tag.AUTH_TIMEOUT then some (.AuthTimeout v)
    else if kp.tag = Tag.OS_VERSION then some (.OSVersion v)
    else if kp.tag = Tag.OS_PATCHLEVEL then some (.OSPatchLevel v)
    else if kp.tag = Tag.VENDOR_PATCHLEVEL then some (.VendorPatchLevel v)
    else if kp.tag = Tag.BOOT_PATCHLEVEL then some (.BootPatchLevel v)
    else if kp.tag = Tag.MAC_LENGTH then some (.MacLength v)
    else if kp.tag = Tag.MAX_BOOT_LEVEL then some (.MaxBootLevel v)
    else none
  | .LongInteger v =>
    if kp.tag = Tag.RSA_PUBLIC_EXPONENT then some (.RSAPublicExponent v)
    else if kp.tag = Tag.USER_SECURE_ID then some (.UserSecureID v)
    else none
  | .DateTime v =>
    if kp.tag = Tag.ACTIVE_DATETIME then some (.ActiveDateTime v)
    else if kp.tag = Tag.ORIGINATION_EXPIRE_DATETIME then
      some (.OriginationExpireDateTime v)
    else if kp.tag = Tag.USAGE_EXPIRE_DATETIME then some (.UsageExpireDateTime v)
    else if kp.tag = Tag.CREATION_DATETIME then some (.CreationDateTime v)
    else if kp.tag = Tag.CERTIFICATE_NOT_BEFORE then some (.CertificateNotBefore v)
    else if kp.tag = Tag.CERTIFICATE_NOT_AFTER then some (.CertificateNotAfter v)
    else none
  | .Blob v =>
    if kp.tag = Tag.APPLICATION_ID then some (.ApplicationID v)
    else if kp.tag = Tag.APPLICATION_DATA then some (.ApplicationData v)
    else if kp.tag = Tag.ROOT_OF_TRUST then some (.RootOfTrust v)
    else if kp.tag = Tag.UNIQUE_ID then some (.UniqueID v)
    else if kp.tag = Tag.ATTESTATION_CHALLENGE then some (.AttestationChallenge v)
    else if kp.tag = Tag.ATTESTATION_APPLICATION_ID then
      some (.AttestationApplicationID v)
    else if kp.tag = Tag.ATTESTATION_ID_BRAND then some (.AttestationIdBrand v)
    else if kp.tag = Tag.ATTESTATION_ID_DEVICE then some (.AttestationIdDevice v)
    else if kp.tag = Tag.ATTESTATION_ID_PRODUCT then some (.AttestationIdProduct v)
    else if kp.tag = Tag.ATTESTATION_ID_SERIAL then some (.AttestationIdSerial v)
    else if kp.tag = Tag.ATTESTATION_ID_IMEI then some (.AttestationIdIMEI v)
    else if kp.tag = Tag.ATTESTATION_ID_SECOND_IMEI then
      some (.AttestationIdSecondIMEI v)
    else if kp.tag = Tag.ATTESTATION_ID_MEID then some (.AttestationIdMEID v)
    else if kp.tag = Tag.ATTESTATION_ID_MANUFACTURER then
      some (.AttestationIdManufacturer v)
    else if kp.tag = Tag.ATTESTATION_ID_MODEL then some (.AttestationIdModel v)
    else if kp.tag = Tag.ASSOCIATED_DATA then some (.AssociatedData v)
    else if kp.tag = Tag.NONCE then some (.Nonce v)
    else if kp.tag = Tag.CONFIRMATION_TOKEN then some (.ConfirmationToken v)
    else if kp.tag = Tag.CERTIFICATE_SERIAL then some (.CertificateSerial v)
    else if kp.tag = Tag.CERTIFICATE_SUBJECT then some (.CertificateSubject v)
    else none

/-- The storage cell a `Primitive` (or no payload) encodes to: `Null` for the
payload-less variants, otherwise the matching monomorphic `ToSqlOutput::from`
conversion of the canonical primitive. -/
def ToSqlOutput.ofPrim : Option Primitive → ToSqlOutput
  | none => .null
  | some (.I32 v) => .fromI32 v
  | some (.I64 v) => .fromI64 v
  | some (.Vec v) => .fromVec v

set_option maxHeartbeats 2000000 in
/-- A variant's row position is its tag's position in the table's tags
column: the link between the constructor numbering and `get_tag`. -/
theorem ctorIdx_eq_indexOf_get_tag (v : KeyParameterValue) :
    v.ctorIdx = tableTags.indexOf v.get_tag := by
  cases v <;> simp only [KeyParameterValue.ctorIdx, KeyParameterValue.get_tag] <;> decide

set_option maxHeartbeats 2000000 in
/-- C1 (amended): `get_tag` is a total function realizing the variant-to-tag
direction of a bijection between the `KeyParameterValue` variants and the
tags that appear in the table: every variant's tag is a table tag, every
table tag is some variant's tag, and two variants with the same tag are the
same constructor. (Totality is the type of `get_tag` itself.) -/
theorem get_tag_table_bijection :
    (∀ v : KeyParameterValue, v.get_tag ∈ tableTags) ∧
    (∀ t ∈ tableTags, ∃ v : KeyParameterValue, v.get_tag = t) ∧
    (∀ v w : KeyParameterValue, v.get_tag = w.get_tag → v.ctorIdx = w.ctorIdx) := by
  refine ⟨?_, ?_, ?_⟩
  · intro v
    cases v <;> simp only [KeyParameterValue.get_tag] <;> decide
  · intro t ht
    fin_cases ht <;>
      first
        | exact ⟨.Invalid, rfl⟩
        | exact ⟨.KeyPurpose ⟨0⟩, rfl⟩
        | exact ⟨.Algorithm ⟨0⟩, rfl⟩
        | exact ⟨.KeySize 0, rfl⟩
        | exact ⟨.BlockMode ⟨0⟩, rfl⟩
        | exact ⟨.Digest ⟨0⟩, rfl⟩
        | exact ⟨.RsaOaepMgfDigest ⟨0⟩, rfl⟩
        | exact ⟨.PaddingMode ⟨0⟩, rfl⟩
        | exact ⟨.CallerNonce, rfl⟩
        | exact ⟨.MinMacLength 0, rfl⟩
        | exact ⟨.EcCurve ⟨0⟩, rfl⟩
        | exact ⟨.RSAPublicExponent 0, rfl⟩
        | exact ⟨.IncludeUniqueID, rfl⟩
        | exact ⟨.BootLoaderOnly, rfl⟩
        | exact ⟨.RollbackResistance, rfl⟩
        | exact ⟨.EarlyBootOnly, rfl⟩
        | exact ⟨.ActiveDateTime 0, rfl⟩
        | exact ⟨.OriginationExpireDateTime 0, rfl⟩
        | exact ⟨.UsageExpireDateTime 0, rfl⟩
        | exact ⟨.MinSecondsBetweenOps 0, rfl⟩
        | exact ⟨.MaxUsesPerBoot 0, rfl⟩
        | exact ⟨.UsageCountLimit 0, rfl⟩
        | exact ⟨.UserID 0, rfl⟩
        | exact ⟨.UserSecureID 0, rfl⟩
        | exact ⟨.NoAuthRequired, rfl⟩
        | exact ⟨.HardwareAuthenticatorType ⟨0⟩, rfl⟩
        | exact ⟨.AuthTimeout 0, rfl⟩
        | exact ⟨.AllowWhileOnBody, rfl⟩
        | exact ⟨.TrustedUserPresenceRequired, rfl⟩
        | exact ⟨.TrustedConfirmationRequired, rfl⟩
        | exact ⟨.UnlockedDeviceRequired, rfl⟩
        | exact ⟨.ApplicationID [], rfl⟩
        | exact ⟨.ApplicationData [], rfl⟩
        | exact ⟨.CreationDateTime 0, rfl⟩
        | exact ⟨.KeyOrigin ⟨0⟩, rfl⟩
        | exact ⟨.RootOfTrust [], rfl⟩
        | exact ⟨.OSVersion 0, rfl⟩
        | exact ⟨.OSPatchLevel 0, rfl⟩
        | exact ⟨.UniqueID [], rfl⟩
        | exact ⟨.AttestationChallenge [], rfl⟩
        | exact ⟨.AttestationApplicationID [], rfl⟩
        | exact ⟨.AttestationIdBrand [], rfl⟩
        | exact ⟨.AttestationIdDevice [], rfl⟩
        | exact ⟨.AttestationIdProduct [], rfl⟩
        | exact ⟨.AttestationIdSerial [], rfl⟩
        | exact ⟨.AttestationIdIMEI [], rfl⟩
        | exact ⟨.AttestationIdSecondIMEI [], rfl⟩
        | exact ⟨.AttestationIdMEID [], rfl⟩
        | exact ⟨.AttestationIdManufacturer [], rfl⟩
        | exact ⟨.AttestationIdModel [], rfl⟩
        | exact ⟨.VendorPatchLevel 0, rfl⟩
        | exact ⟨.BootPatchLevel 0, rfl⟩
        | exact ⟨.AssociatedData [], rfl⟩
        | exact ⟨.Nonce [], rfl⟩
        | exact ⟨.MacLength 0, rfl⟩
        | exact ⟨.ResetSinceIdRotation, rfl⟩
        | exact ⟨.ConfirmationToken [], rfl⟩
        | exact ⟨.CertificateSerial [], rfl⟩
        | exact ⟨.CertificateSubject [], rfl⟩
        | exact ⟨.CertificateNotBefore 0, rfl⟩
        | exact ⟨.CertificateNotAfter 0, rfl⟩
        | exact ⟨.MaxBootLevel 0, rfl⟩
  · intro v w h
    rw [ctorIdx_eq_indexOf_get_tag, ctorIdx_eq_indexOf_get_tag, h]

/-- C1 counterexample: the claim's "no Tag is unmapped" fails for the Tag
type itself: `Tag::HARDWARE_TYPE` is a keymint tag with no
`KeyParameterValue` variant, so no value of `get_tag` ever reaches it. -/
theorem unmapped_tag_exists :
    ¬ (∀ t : Tag, ∃ v : KeyParameterValue, v.get_tag = t) := by
  intro h
  obtain ⟨v, hv⟩ := h Tag.HARDWARE_TYPE
  cases v <;> simp only [KeyParameterValue.get_tag] at hv <;> exact absurd hv (by decide)

/-- C2: converting any `KeyParameterValue` (flag variants and `Invalid`
included) to the wire format and back yields the original value; in
particular `KeySize 2048` round-trips. -/
theorem wire_roundtrip :
    ∀ v : KeyParameterValue, KeyParameterValue.fromKm v.intoKm = v := by
  intro v
  cases v <;> rfl

/-- C3: for every payload-carrying variant (every non-flag tag other than
INVALID) with payload erased to a primitive, `new_from_tag_primitive_pair`
of the variant's tag and that primitive reconstructs the variant. -/
theorem primitive_roundtrip :
    ∀ (v : KeyParameterValue) (p : Primitive), v.primitiveOf = some p →
    KeyParameterValue.new_from_tag_primitive_pair v.get_tag p = .ok v := by
  intro v p hp
  cases v <;>
    simp [KeyParameterValue.primitiveOf, Aidl.Algorithm.to_primitive,
      Aidl.BlockMode.to_primitive, Aidl.Digest.to_primitive, Aidl.EcCurve.to_primitive,
      Aidl.HardwareAuthenticatorType.to_primitive, Aidl.KeyOrigin.to_primitive,
      Aidl.KeyPurpose.to_primitive, Aidl.PaddingMode.to_primitive] at hp <;>
    subst hp <;> rfl

/-- C3 witness: the key-size tag with value 2048 round-trips through the
primitive layer. -/
theorem primitive_roundtrip_witness :
    (KeyParameterValue.KeySize 2048).primitiveOf = some (Primitive.I32 2048) ∧
    KeyParameterValue.new_from_tag_primitive_pair
      (KeyParameterValue.KeySize 2048).get_tag (Primitive.I32 2048) =
      .ok (.KeySize 2048) :=
  ⟨rfl, primitive_roundtrip (.KeySize 2048) (.I32 2048) rfl⟩

/-- C4 counterexample: a table tag whose payload class is a payload-less
flag (CALLER_NONCE) or INVALID accepts any primitive and returns Ok of its
variant, not `Err(TypeMismatch)`, although an I32 primitive disagrees with
a boolean (respectively empty) payload class. -/
theorem payloadless_tag_primitive_ok :
    (KeyParameterValue.new_from_tag_primitive_pair Tag.CALLER_NONCE (Primitive.I32 0) =
      .ok .CallerNonce) ∧
    (KeyParameterValue.new_from_tag_primitive_pair Tag.CALLER_NONCE (Primitive.I32 0) ≠
      .error .TypeMismatch) ∧
    (KeyParameterValue.new_from_tag_primitive_pair Tag.INVALID (Primitive.I64 7) =
      .ok .Invalid) :=
  ⟨rfl, fun h => Except.noConfusion h, rfl⟩

set_option maxHeartbeats 2000000 in
/-- C4 (amended): for every table tag whose payload class carries data (a
row of `primTable`), a primitive whose shape disagrees with the row's
declared primitive class makes `new_from_tag_primitive_pair` return
`Err(TypeMismatch)`; in particular an I64 primitive for the 32-bit KEY_SIZE
class. (The payload-less table rows ignore the primitive, see the
counterexample.) -/
theorem data_tag_primitive_mismatch :
    ∀ (t : Tag) (n : String) (c : PrimCase), (t, n, c) ∈ primTable →
    ∀ p : Primitive, p.case ≠ c →
    KeyParameterValue.new_from_tag_primitive_pair t p = .error .TypeMismatch := by
  intro t n c hmem p hp
  fin_cases hmem <;> cases p <;> first | rfl | exact absurd rfl hp

/-- C4 witness: supplying a 64-bit primitive for the 32-bit KEY_SIZE class
yields TypeMismatch. -/
theorem data_tag_primitive_mismatch_witness :
    (Tag.KEY_SIZE, "KEY_SIZE", PrimCase.I32) ∈ primTable ∧
    (Primitive.I64 2048).case ≠ PrimCase.I32 ∧
    KeyParameterValue.new_from_tag_primitive_pair Tag.KEY_SIZE (Primitive.I64 2048) =
      .error .TypeMismatch :=
  ⟨by decide, by decide,
    data_tag_primitive_mismatch Tag.KEY_SIZE "KEY_SIZE" PrimCase.I32 (by decide)
      (Primitive.I64 2048) (by decide)⟩

/-- C5: for every tag with no table entry, `new_from_sql` leniently returns
`Ok(Invalid)` for every cell, while `new_from_tag_primitive_pair` returns
`Err(UnknownTag)` for every primitive. -/
theorem unknown_tag_asymmetry :
    ∀ t : Tag, t ∉ tableTags →
    (∀ cell : SqlField, KeyParameterValue.new_from_sql t cell = .ok .Invalid) ∧
    (∀ p : Primitive,
      KeyParameterValue.new_from_tag_primitive_pair t p = .error .UnknownTag) := by
  intro t ht
  simp only [tableTags, List.mem_cons, List.not_mem_nil, or_false, not_or] at ht
  exact ⟨fun cell => by simp [KeyParameterValue.new_from_sql, ht],
    fun p => by simp [KeyParameterValue.new_from_tag_primitive_pair, ht]⟩

/-- C5 witness: `HARDWARE_TYPE` is a keymint tag with no table entry; the
storage path degrades to `Invalid`, the primitive path errors. -/
theorem unknown_tag_asymmetry_witness :
    Tag.HARDWARE_TYPE ∉ tableTags ∧
    KeyParameterValue.new_from_sql Tag.HARDWARE_TYPE ⟨.ok 0, .ok 0, .ok []⟩ =
      .ok .Invalid ∧
    KeyParameterValue.new_from_tag_primitive_pair Tag.HARDWARE_TYPE (Primitive.I32 0) =
      .error .UnknownTag :=
  ⟨by decide, (unknown_tag_asymmetry Tag.HARDWARE_TYPE (by decide)).1 ⟨.ok 0, .ok 0, .ok []⟩,
    (unknown_tag_asymmetry Tag.HARDWARE_TYPE (by decide)).2 (Primitive.I32 0)⟩

set_option maxHeartbeats 4000000 in
/-- C6: `From<KmKeyParameter>` is total (its type rejects nothing) and agrees
with the table: on a wire record whose (tag, field) pairing is exactly a
table row's it constructs the matching variant, and on every other wire
record (unexpected field for the tag, or unknown tag) it returns `Invalid` —
stated as a refinement of the spec-side matcher `wireTableMatch`. -/
theorem from_wire_table_refinement :
    ∀ kp : KmKeyParameter,
    KeyParameterValue.fromKm kp = (wireTableMatch kp).getD .Invalid := by
  intro kp
  obtain ⟨t, val⟩ := kp
  by_cases ht : t ∈ tableTags
  · fin_cases ht <;> cases val <;> rfl
  · simp only [tableTags, List.mem_cons, List.not_mem_nil, or_false, not_or] at ht
    cases val <;> simp [KeyParameterValue.fromKm, wireTableMatch, ht]

/-- C7: every payload-less boolean-flag variant goes to the wire as
`BoolValue(true)`, and `Invalid` goes to the wire as the zero default
`Invalid(0)`. -/
theorem flag_wire_defaults :
    KeyParameterValue.CallerNonce.intoKm = ⟨Tag.CALLER_NONCE, .BoolValue true⟩ ∧
    KeyParameterValue.IncludeUniqueID.intoKm = ⟨Tag.INCLUDE_UNIQUE_ID, .BoolValue true⟩ ∧
    KeyParameterValue.BootLoaderOnly.intoKm = ⟨Tag.BOOTLOADER_ONLY, .BoolValue true⟩ ∧
    KeyParameterValue.RollbackResistance.intoKm =
      ⟨Tag.ROLLBACK_RESISTANCE, .BoolValue true⟩ ∧
    KeyParameterValue.EarlyBootOnly.intoKm = ⟨Tag.EARLY_BOOT_ONLY, .BoolValue true⟩ ∧
    KeyParameterValue.NoAuthRequired.intoKm = ⟨Tag.NO_AUTH_REQUIRED, .BoolValue true⟩ ∧
    KeyParameterValue.AllowWhileOnBody.intoKm =
      ⟨Tag.ALLOW_WHILE_ON_BODY, .BoolValue true⟩ ∧
    KeyParameterValue.TrustedUserPresenceRequired.intoKm =
      ⟨Tag.TRUSTED_USER_PRESENCE_REQUIRED, .BoolValue true⟩ ∧
    KeyParameterValue.TrustedConfirmationRequired.intoKm =
      ⟨Tag.TRUSTED_CONFIRMATION_REQUIRED, .BoolValue true⟩ ∧
    KeyParameterValue.UnlockedDeviceRequired.intoKm =
      ⟨Tag.UNLOCKED_DEVICE_REQUIRED, .BoolValue true⟩ ∧
    KeyParameterValue.ResetSinceIdRotation.intoKm =
      ⟨Tag.RESET_SINCE_ID_ROTATION, .BoolValue true⟩ ∧
    KeyParameterValue.Invalid.intoKm = ⟨Tag.INVALID, .Invalid 0⟩ :=
  ⟨rfl, rfl, rfl, rfl, rfl, rfl, rfl, rfl, rfl, rfl, rfl, rfl⟩

/-- C8: `to_sql` never fails: every payload-less variant (flags and
`Invalid`) encodes as SQL NULL and every payload-carrying variant encodes
as its payload's canonical primitive representation. -/
theorem to_sql_total_encoding :
    ∀ v : KeyParameterValue, v.to_sql = .ok (ToSqlOutput.ofPrim v.primitiveOf) := by
  intro v
  cases v <;> rfl

set_option maxHeartbeats 4000000 in
/-- C9: for every table row whose payload class carries data, a failing
typed cell read makes `new_from_sql` return the VALUE_CORRUPTED error
carrying the row's tag name as context (and nothing panics: the function is
total), while a successful read returns Ok of the row's variant carrying the
decoded value. -/
theorem new_from_sql_decode :
    ∀ (t : Tag) (n : String) (c : PrimCase), (t, n, c) ∈ primTable →
    ∀ cell : SqlField,
    (cell.getPrim c = .error () →
      KeyParameterValue.new_from_sql t cell =
        .error ⟨.Rc .VALUE_CORRUPTED, "Failed to read sql data for tag: " ++ n ++ "."⟩) ∧
    (∀ p : Primitive, cell.getPrim c = .ok p →
      ∃ v : KeyParameterValue, KeyParameterValue.new_from_sql t cell = .ok v ∧
        v.get_tag = t ∧ v.primitiveOf = some p) := by
  intro t n c hmem cell
  obtain ⟨g32, g64, gv⟩ := cell
  fin_cases hmem <;>
    refine ⟨fun hfail => ?_, fun p hp => ?_⟩ <;>
    cases g32 <;> cases g64 <;> cases gv <;>
    first
      | rfl
      | simp [SqlField.getPrim, Except.map] at hfail
      | (simp [SqlField.getPrim, Except.map] at hp; subst hp; exact ⟨_, rfl, rfl, rfl⟩)
      | simp [SqlField.getPrim, Except.map] at hp

/-- C9 witness: a failing 32-bit read under KEY_SIZE yields the
VALUE_CORRUPTED error naming KEY_SIZE; a successful read of 2048 yields
Ok(KeySize 2048). -/
theorem new_from_sql_decode_witness :
    (KeyParameterValue.new_from_sql Tag.KEY_SIZE ⟨.error (), .ok 0, .ok []⟩ =
      .error ⟨.Rc .VALUE_CORRUPTED, "Failed to read sql data for tag: " ++ "KEY_SIZE" ++ "."⟩) ∧
    (∃ v : KeyParameterValue,
      KeyParameterValue.new_from_sql Tag.KEY_SIZE ⟨.ok 2048, .ok 0, .ok []⟩ = .ok v ∧
        v.get_tag = Tag.KEY_SIZE ∧ v.primitiveOf = some (Primitive.I32 2048)) :=
  ⟨(new_from_sql_decode Tag.KEY_SIZE "KEY_SIZE" PrimCase.I32 (by decide)
      ⟨.error (), .ok 0, .ok []⟩).1 rfl,
    (new_from_sql_decode Tag.KEY_SIZE "KEY_SIZE" PrimCase.I32 (by decide)
      ⟨.ok 2048, .ok 0, .ok []⟩).2 (Primitive.I32 2048) rfl⟩

/-- C10: the payload-less table tags (INVALID and every boolean flag) never
read the storage cell: for every cell, decodable or not, `new_from_sql`
returns Ok of the corresponding payload-less variant, so VALUE_CORRUPTED is
unreachable for them. -/
theorem payloadless_tags_ignore_cell : ∀ cell : SqlField,
    KeyParameterValue.new_from_sql Tag.INVALID cell = .ok .Invalid ∧
    KeyParameterValue.new_from_sql Tag.CALLER_NONCE cell = .ok .CallerNonce ∧
    KeyParameterValue.new_from_sql Tag.INCLUDE_UNIQUE_ID cell = .ok .IncludeUniqueID ∧
    KeyParameterValue.new_from_sql Tag.BOOTLOADER_ONLY cell = .ok .BootLoaderOnly ∧
    KeyParameterValue.new_from_sql Tag.ROLLBACK_RESISTANCE cell = .ok .RollbackResistance ∧
    KeyParameterValue.new_from_sql Tag.EARLY_BOOT_ONLY cell = .ok .EarlyBootOnly ∧
    KeyParameterValue.new_from_sql Tag.NO_AUTH_REQUIRED cell = .ok .NoAuthRequired ∧
    KeyParameterValue.new_from_sql Tag.ALLOW_WHILE_ON_BODY cell = .ok .AllowWhileOnBody ∧
    KeyParameterValue.new_from_sql Tag.TRUSTED_USER_PRESENCE_REQUIRED cell =
      .ok .TrustedUserPresenceRequired ∧
    KeyParameterValue.new_from_sql Tag.TRUSTED_CONFIRMATION_REQUIRED cell =
      .ok .TrustedConfirmationRequired ∧
    KeyParameterValue.new_from_sql Tag.UNLOCKED_DEVICE_REQUIRED cell =
      .ok .UnlockedDeviceRequired ∧
    KeyParameterValue.new_from_sql Tag.RESET_SINCE_ID_ROTATION cell =
      .ok .ResetSinceIdRotation := by
  intro cell
  exact ⟨rfl, rfl, rfl, rfl, rfl, rfl, rfl, rfl, rfl, rfl, rfl, rfl⟩
